import Mathlib

/-!
Verification of the eulix query-answering core against its specification.

The Go sources are shallowly embedded: pure functions become Lean functions,
Go `map` values become association lists (with iteration order made an explicit
parameter where the order is observable), machine integers become `Nat`/`Int`
(no overflow is relevant at the sizes involved), `float64` scores become `ℚ`
(every score produced by the retrieval pipeline is a finite decimal, and no
comparison in any claim is close enough to a rounding boundary for the
`float64`/`ℚ` distinction to matter), and fallible Go functions returning
`(T, error)` become `Except String T`.
-/

namespace Eulix

/-- Equality on Go-style `(value, error)` results is decidable. -/
instance {ε α : Type} [DecidableEq ε] [DecidableEq α] :
    DecidableEq (Except ε α) := fun a b =>
  match a, b with
  | .ok x, .ok y =>
      if h : x = y then isTrue (by rw [h]) else isFalse (by simp [h])
  | .error x, .error y =>
      if h : x = y then isTrue (by rw [h]) else isFalse (by simp [h])
  | .ok _, .error _ => isFalse (by simp)
  | .error _, .ok _ => isFalse (by simp)

/-! ## Go string primitives

Faithful models of the `strings` standard-library functions used by the
sources, over Lean `String`/`List Char`.  All queries and identifiers in the
development are ASCII, where Go's Unicode-aware functions agree with these
character-level models. -/

namespace GoStr

/-- Does `sub` occur as a contiguous sublist of `cs`? -/
def containsChars (sub : List Char) : List Char → Bool
  | [] => sub.isEmpty
  | c :: rest => sub.isPrefixOf (c :: rest) || containsChars sub rest

/-- Model of Go `strings.Contains s sub`: `sub` occurs contiguously in `s`. -/
def contains (s sub : String) : Bool :=
  containsChars sub.toList s.toList

/-- Model of Go `strings.HasPrefix`. -/
def startsWith (s pre : String) : Bool :=
  List.isPrefixOf pre.toList s.toList

/-- Model of Go `strings.HasSuffix`. -/
def endsWith (s suf : String) : Bool :=
  List.isSuffixOf suf.toList s.toList

/-- Split a character list at every separator (separators dropped, empty
pieces preserved), as Go `strings.Split`/`FieldsFunc` segment the text. -/
def splitChars (p : Char → Bool) : List Char → List (List Char)
  | [] => [[]]
  | c :: rest =>
      match splitChars p rest with
      | acc :: accs => if p c then [] :: acc :: accs else (c :: acc) :: accs
      | [] => [[]]

/-- Model of Go `strings.Fields`: split on runs of whitespace, dropping
empty pieces. -/
def fields (s : String) : List String :=
  ((splitChars (fun c => c.isWhitespace) s.toList).map String.mk).filter
    (fun w => w ≠ "")

/-- Model of Go `strings.FieldsFunc f`: split where `f` holds, dropping
empty pieces. -/
def fieldsFunc (s : String) (f : Char → Bool) : List String :=
  ((splitChars f s.toList).map String.mk).filter (fun w => w ≠ "")

/-- Model of Go `strings.Split` with a single-character separator
(empty pieces preserved). -/
def splitOnChar (sep : Char) (s : String) : List String :=
  (splitChars (fun c => c = sep) s.toList).map String.mk

/-- The text before the first occurrence of `sep` (the whole text when
`sep` does not occur): Go `strings.Split(s, sep)[0]`. -/
def takeBeforeSub (sep : List Char) : List Char → List Char
  | [] => []
  | c :: rest =>
      if sep.isPrefixOf (c :: rest) then []
      else c :: takeBeforeSub sep rest

/-- Model of Go `strings.Trim s cutset`: remove leading and trailing
characters belonging to `cutset`. -/
def trimChars (s : String) (cutset : List Char) : String :=
  String.mk (((s.toList.dropWhile (fun c => cutset.contains c)).reverse.dropWhile
    (fun c => cutset.contains c)).reverse)

/-- Model of Go `strings.ToLower` on ASCII text. -/
def toLower (s : String) : String :=
  String.mk (s.toList.map Char.toLower)

/-- Model of Go `strings.TrimSpace` on ASCII text. -/
def trimSpace (s : String) : String :=
  String.mk (((s.toList.dropWhile (fun c => c.isWhitespace)).reverse.dropWhile
    (fun c => c.isWhitespace)).reverse)

/-- The UTF-8 byte length of a string (Go `len(s)`). -/
def byteLen (s : String) : Nat :=
  s.toList.foldl (fun n c => n + c.utf8Size) 0

/-- Model of Go `strings.Join` with a separator. -/
def join (l : List String) (sep : String) : String :=
  match l with
  | [] => ""
  | x :: xs => xs.foldl (fun acc w => acc ++ sep ++ w) x

/-- UTF-8 bytes of an ASCII string (Go `[]byte(s)`); all strings hashed in
this development are ASCII, where code points and bytes coincide. -/
def bytes (s : String) : List Nat :=
  s.toList.map (fun c => c.toNat)

end GoStr

/-! ## SHA-256

A complete executable model of SHA-256 (FIPS 180-4) over byte lists, used to
evaluate the change detector's per-file and aggregate digests on concrete
inputs.  Words are `Nat` reduced mod `2^32`. -/

namespace SHA256

def mask32 : Nat := 4294967295

def add32 (a b : Nat) : Nat := (a + b) &&& mask32

def rotr (n x : Nat) : Nat := ((x >>> n) ||| (x <<< (32 - n))) &&& mask32

def bigSigma0 (x : Nat) : Nat := (rotr 2 x) ^^^ (rotr 13 x) ^^^ (rotr 22 x)

def bigSigma1 (x : Nat) : Nat := (rotr 6 x) ^^^ (rotr 11 x) ^^^ (rotr 25 x)

def smallSigma0 (x : Nat) : Nat := (rotr 7 x) ^^^ (rotr 18 x) ^^^ (x >>> 3)

def smallSigma1 (x : Nat) : Nat := (rotr 17 x) ^^^ (rotr 19 x) ^^^ (x >>> 10)

def ch (x y z : Nat) : Nat := (x &&& y) ^^^ ((x ^^^ mask32) &&& z)

def maj (x y z : Nat) : Nat := (x &&& y) ^^^ (x &&& z) ^^^ (y &&& z)

def K : List Nat := [
  1116352408, 1899447441, 3049323471, 3921009573,
  961987163, 1508970993, 2453635748, 2870763221,
  3624381080, 310598401, 607225278, 1426881987,
  1925078388, 2162078206, 2614888103, 3248222580,
  3835390401, 4022224774, 264347078, 604807628,
  770255983, 1249150122, 1555081692, 1996064986,
  2554220882, 2821834349, 2952996808, 3210313671,
  3336571891, 3584528711, 113926993, 338241895,
  666307205, 773529912, 1294757372, 1396182291,
  1695183700, 1986661051, 2177026350, 2456956037,
  2730485921, 2820302411, 3259730800, 3345764771,
  3516065817, 3600352804, 4094571909, 275423344,
  430227734, 506948616, 659060556, 883997877,
  958139571, 1322822218, 1537002063, 1747873779,
  1955562222, 2024104815, 2227730452, 2361852424,
  2428436474, 2756734187, 3204031479, 3329325298]

structure Regs where
  a : Nat
  b : Nat
  c : Nat
  d : Nat
  e : Nat
  f : Nat
  g : Nat
  h : Nat

def initRegs : Regs :=
  { a := 1779033703, b := 3144134277, c := 1013904242, d := 2773480762,
    e := 1359893119, f := 2600822924, g := 528734635, h := 1541459225 }

/-- Big-endian 8-byte encoding of a (bit-)length. -/
def beBytes8 (n : Nat) : List Nat :=
  [(n >>> 56) &&& 255, (n >>> 48) &&& 255, (n >>> 40) &&& 255, (n >>> 32) &&& 255,
   (n >>> 24) &&& 255, (n >>> 16) &&& 255, (n >>> 8) &&& 255, n &&& 255]

/-- FIPS 180-4 padding: append `0x80`, zeros to 56 mod 64, then the bit
length big-endian. -/
def padMessage (msg : List Nat) : List Nat :=
  let L := msg.length
  let padZeros := (119 - L % 64) % 64
  msg ++ [128] ++ List.replicate padZeros 0 ++ beBytes8 (8 * L)

/-- Group bytes into big-endian 32-bit words. -/
def toWords : List Nat → List Nat
  | b0 :: b1 :: b2 :: b3 :: rest =>
      ((b0 <<< 24) ||| (b1 <<< 16) ||| (b2 <<< 8) ||| b3) :: toWords rest
  | _ => []

/-- The next schedule word from the previous 16 (`w[t-16] .. w[t-1]`). -/
def nextW (win : List Nat) : Nat :=
  match win with
  | w0 :: w1 :: _ :: _ :: _ :: _ :: _ :: _ :: _ :: w9 :: _ :: _ :: _ :: _ :: w14 :: _ :: [] =>
      add32 (add32 (smallSigma1 w14) w9) (add32 (smallSigma0 w1) w0)
  | _ => 0

/-- Extend the 16 block words to the 64-entry message schedule by a sliding
16-word window. -/
def extendSchedule : Nat → List Nat → List Nat
  | 0, _ => []
  | n + 1, win =>
      match win with
      | w :: rest => w :: extendSchedule n (rest ++ [nextW win])
      | [] => []

def round (r : Regs) (kw : Nat × Nat) : Regs :=
  let t1 := add32 r.h (add32 (bigSigma1 r.e) (add32 (ch r.e r.f r.g) (add32 kw.1 kw.2)))
  let t2 := add32 (bigSigma0 r.a) (maj r.a r.b r.c)
  { a := add32 t1 t2, b := r.a, c := r.b, d := r.c,
    e := add32 r.d t1, f := r.e, g := r.f, h := r.g }

def processBlock (h0 : Regs) (block : List Nat) : Regs :=
  let w := extendSchedule 64 (toWords block)
  let r := (K.zip w).foldl round h0
  { a := add32 h0.a r.a, b := add32 h0.b r.b, c := add32 h0.c r.c,
    d := add32 h0.d r.d, e := add32 h0.e r.e, f := add32 h0.f r.f,
    g := add32 h0.g r.g, h := add32 h0.h r.h }

/-- Split a (padded) byte list into 64-byte blocks (structural recursion on
a fuel bounded by the list length, so that the kernel can evaluate it). -/
def blocks64Aux : Nat → List Nat → List (List Nat)
  | 0, _ => []
  | _, [] => []
  | fuel + 1, l => l.take 64 :: blocks64Aux fuel (l.drop 64)

def blocks64 (l : List Nat) : List (List Nat) :=
  blocks64Aux l.length l

/-- Big-endian bytes of a 32-bit word. -/
def wordBytes (n : Nat) : List Nat :=
  [(n >>> 24) &&& 255, (n >>> 16) &&& 255, (n >>> 8) &&& 255, n &&& 255]

/-- The 32-byte SHA-256 digest of a byte list. -/
def digestBytes (msg : List Nat) : List Nat :=
  let r := (blocks64 (padMessage msg)).foldl processBlock initRegs
  wordBytes r.a ++ wordBytes r.b ++ wordBytes r.c ++ wordBytes r.d ++
  wordBytes r.e ++ wordBytes r.f ++ wordBytes r.g ++ wordBytes r.h

def hexDigit (n : Nat) : Char :=
  if n < 10 then Char.ofNat (48 + n) else Char.ofNat (87 + n)

def byteHex (b : Nat) : String :=
  String.mk [hexDigit (b / 16), hexDigit (b % 16)]

/-- Lowercase hex encoding of the SHA-256 digest, as produced by Go
`hex.EncodeToString(h.Sum(nil))`. -/
def sha256hex (msg : List Nat) : String :=
  String.join ((digestBytes msg).map byteHex)

end SHA256

/-! ## Change detector (`internal/checksum/detector.go`, unnamed part_002)

`Calculate` walks the tree, hashes each kept file, and then computes the
project hash by iterating the Go map `fileHashes` — whose iteration order is
unspecified.  The walk's output is modelled as an association list from
relative path to file bytes; the map iteration order is an explicit
`order` parameter ranging over permutations of the stored keys. -/

namespace Checksum

/-- The kept files of a source tree: relative path → byte contents.
Paths are distinct (each file is visited once by `filepath.Walk`). -/
abbrev Tree := List (String × List Nat)

/-- Model of `hashFile` (detector.go:228-259): the SHA-256 hex digest of the
file's bytes.  (The streaming 4 KiB buffer reads the same bytes.) -/
def hashFile (content : List Nat) : String :=
  SHA256.sha256hex content

/-- The per-file digest map built by `Calculate` (detector.go:130-139):
`fileHashes[relPath] = hash`. -/
def fileHashes (tree : Tree) : List (String × String) :=
  tree.map (fun pc => (pc.1, hashFile pc.2))

/-- Association-list lookup (Go map read). -/
def lookup (m : List (String × String)) (k : String) : Option String :=
  (m.find? (fun pc => pc.1 = k)).map (fun pc => pc.2)

/-- The byte stream written into the aggregate SHA-256 by
detector.go:149-152: `for _, hash := range fileHashes { h.Write([]byte(hash)) }`,
with the map iterated in `order`. -/
def aggregateInput (tree : Tree) (order : List String) : List Nat :=
  (order.filterMap (lookup (fileHashes tree))).foldl
    (fun acc d => acc ++ GoStr.bytes d) []

/-- Model of the project hash computed by `Calculate`
(detector.go:148-153, part_002:71-76): SHA-256 over the per-file digests in
map iteration order `order`. -/
def calculateHash (tree : Tree) (order : List String) : String :=
  SHA256.sha256hex (aggregateInput tree order)

/-- The keys of the per-file digest map. -/
def treeKeys (tree : Tree) : List String :=
  tree.map (fun pc => pc.1)

/-- Concrete two-file source tree used to exercise `Calculate`:
`a.go` containing "x\n" and `b.go` containing "y\n". -/
def demoTree : Tree :=
  [("a.go", GoStr.bytes "x\n"), ("b.go", GoStr.bytes "y\n")]

end Checksum

/-! ## Validated cache (`internal/cache/manager.go`)

Both backends are modelled as key-value stores `String → Option CacheEntry`:
Redis keyed by `eulix:query:<hash>` and the SQLite table keyed by its
primary key `query_hash`.  Time is an abstract `Nat` (hours); `hashQuery`
(SHA-256 of the raw query bytes) is carried in the manager, so theorems
hold for the real hash and every other key-derivation function alike.
Backend I/O failures are injected through explicit flags. -/

namespace Cache

structure Config where
  redisEnabled : Bool
  sqlEnabled : Bool
  redisTTLHours : Nat

/-- One cache row/value (manager.go:26-33). -/
structure CacheEntry where
  queryHash : String
  query : String
  response : String
  checksumHash : String
  createdAt : Nat
  expiresAt : Nat

/-- A key-value backend. -/
def Store := String → Option CacheEntry

def storeGet (st : Store) (k : String) : Option CacheEntry := st k

/-- Overwriting write: Redis `SET`, SQLite `INSERT OR REPLACE`. -/
def storeSet (st : Store) (k : String) (v : CacheEntry) : Store :=
  fun x => if x = k then some v else st x

/-- Key deletion: Redis `DEL`, SQLite `DELETE ... WHERE query_hash = ?`. -/
def storeDel (st : Store) (k : String) : Store :=
  fun x => if x = k then none else st x

/-- The two backends' contents. -/
structure State where
  redis : Store
  sql : Store

structure Manager where
  cfg : Config
  hashQuery : String → String

/-- Model of `getTTL` (manager.go:414-424): default 24 hours, overridden by
the Redis TTL when Redis is enabled with a positive TTL. -/
def getTTL (m : Manager) : Nat :=
  if m.cfg.redisEnabled ∧ m.cfg.redisTTLHours > 0 then m.cfg.redisTTLHours else 24

/-- Result of `Set`: the new backend contents and the returned error. -/
structure SetResult where
  state : State
  err : Option String

/-- Model of `Set` (manager.go:188-215) with injected backend failures.
A failing Redis write makes `Set` return early (manager.go:202-204), so the
SQL write is skipped; a failing SQL write returns an error but the Redis
write has already happened. -/
def set (m : Manager) (st : State) (query response checksumHash : String)
    (now : Nat) (redisFails sqlFails : Bool) : SetResult :=
  let queryHash := m.hashQuery query
  let entry : CacheEntry :=
    { queryHash := queryHash, query := query, response := response,
      checksumHash := checksumHash, createdAt := now,
      expiresAt := now + getTTL m }
  if m.cfg.redisEnabled ∧ redisFails then
    { state := st, err := some "redis save failed" }
  else
    let st1 := if m.cfg.redisEnabled then
      { st with redis := storeSet st.redis ("eulix:query:" ++ queryHash) entry }
      else st
    if m.cfg.sqlEnabled ∧ sqlFails then
      { state := st1, err := some "sql save failed" }
    else
      let st2 := if m.cfg.sqlEnabled then
        { st1 with sql := storeSet st1.sql queryHash entry }
        else st1
      { state := st2, err := none }

/-- Result of a read: the response, the hit flag, and the possibly mutated
backends (mismatched or expired entries are deleted on detection). -/
structure GetResult where
  response : String
  found : Bool
  state : State

/-- Model of `getFromRedis` (manager.go:120-150): fetch by key, delete and
miss on checksum mismatch or expiry. -/
def getFromRedis (st : State) (queryHash currentChecksumHash : String)
    (now : Nat) : GetResult :=
  let key := "eulix:query:" ++ queryHash
  match storeGet st.redis key with
  | none => { response := "", found := false, state := st }
  | some entry =>
    if entry.checksumHash ≠ currentChecksumHash then
      { response := "", found := false, state := { st with redis := storeDel st.redis key } }
    else if now > entry.expiresAt then
      { response := "", found := false, state := { st with redis := storeDel st.redis key } }
    else
      { response := entry.response, found := true, state := st }

/-- Model of `getFromSQL` (manager.go:152-185): the SELECT's WHERE clause
requires both the key and the checksum to match; expired rows are deleted
and reported as misses. -/
def getFromSQL (st : State) (queryHash currentChecksumHash : String)
    (now : Nat) : GetResult :=
  match storeGet st.sql queryHash with
  | none => { response := "", found := false, state := st }
  | some entry =>
    if entry.checksumHash ≠ currentChecksumHash then
      { response := "", found := false, state := st }
    else if now > entry.expiresAt then
      { response := "", found := false, state := { st with sql := storeDel st.sql queryHash } }
    else
      { response := entry.response, found := true, state := st }

/-- Model of `Get` (manager.go:100-118): try Redis first, then SQL; return
the response only on a validated hit. -/
def get (m : Manager) (st : State) (query currentChecksumHash : String)
    (now : Nat) : GetResult :=
  let queryHash := m.hashQuery query
  let r1 := if m.cfg.redisEnabled then getFromRedis st queryHash currentChecksumHash now
            else { response := "", found := false, state := st }
  if r1.found then r1
  else
    let r2 := if m.cfg.sqlEnabled then getFromSQL r1.state queryHash currentChecksumHash now
              else { response := "", found := false, state := r1.state }
    if r2.found then r2
    else { response := "", found := false, state := r2.state }

/-- Empty backends. -/
def emptyState : State :=
  { redis := fun _ => none, sql := fun _ => none }

/-- A manager with both backends enabled and the real SHA-256 key
derivation of manager.go:408-412. -/
def demoManager : Manager :=
  { cfg := { redisEnabled := true, sqlEnabled := true, redisTTLHours := 6 },
    hashQuery := fun s => SHA256.sha256hex (GoStr.bytes s) }

end Cache

/-! ## Regex engine for the classifier's fixed patterns

The classifier uses a fixed set of Go regexes built from literals,
alternation, `\s+`, `[\s-]`, optional suffixes (`s?`, `\.?`) and `.*`.
`Pat` is exactly this sub-language; `matches` decides whether a pattern
(an alternation of `Pat` sequences) matches anywhere in the string, which
is what `regexp.MatchString` reports. -/

namespace Pattern

inductive Pat where
  | lit (s : String)
  | ws
  | ws1
  | wsDash
  | opt (s : String)
  | dotstar
deriving Repr

/-- Backtracking matcher: does the sequence `ps` match a prefix of `cs`?
`ws` is `\s+`, `ws1` is a single `\s`, `wsDash` is `[\s-]`, `opt s` an
optional literal, `dotstar` is `.*` (not crossing a newline).  Structural
recursion on a fuel that bounds `ps.length + cs.length` (every branch
strictly shrinks that measure), so the kernel can evaluate it. -/
def matchPatsAux : Nat → List Pat → List Char → Bool
  | 0, _, _ => false
  | _ + 1, [], _ => true
  | fuel + 1, .lit s :: ps, cs =>
      s.toList.isPrefixOf cs && matchPatsAux fuel ps (cs.drop s.length)
  | fuel + 1, .ws :: ps, cs =>
      match cs with
      | c :: rest =>
          c.isWhitespace &&
            (matchPatsAux fuel ps rest || matchPatsAux fuel (.ws :: ps) rest)
      | [] => false
  | fuel + 1, .ws1 :: ps, cs =>
      match cs with
      | c :: rest => c.isWhitespace && matchPatsAux fuel ps rest
      | [] => false
  | fuel + 1, .wsDash :: ps, cs =>
      match cs with
      | c :: rest => (c.isWhitespace || c = '-') && matchPatsAux fuel ps rest
      | [] => false
  | fuel + 1, .opt s :: ps, cs =>
      (s.toList.isPrefixOf cs && matchPatsAux fuel ps (cs.drop s.length)) ||
        matchPatsAux fuel ps cs
  | fuel + 1, .dotstar :: ps, cs =>
      matchPatsAux fuel ps cs ||
      (match cs with
       | c :: rest => ¬ c = '\n' && matchPatsAux fuel (.dotstar :: ps) rest
       | [] => false)

def matchPats (ps : List Pat) (cs : List Char) : Bool :=
  matchPatsAux (ps.length + cs.length + 1) ps cs

/-- Does some alternative match starting at some position? -/
def searchFrom (alts : List (List Pat)) : List Char → Bool
  | [] => alts.any (fun a => matchPats a [])
  | c :: rest => alts.any (fun a => matchPats a (c :: rest)) || searchFrom alts rest

/-- Unanchored `MatchString` for an alternation of sequences. -/
def rxMatch (alts : List (List Pat)) (s : String) : Bool :=
  searchFrom alts s.toList

/-- Anchored (`^...`) `MatchString`. -/
def rxMatchAnchored (alts : List (List Pat)) (s : String) : Bool :=
  alts.any (fun a => matchPats a s.toList)

end Pattern

/-! ## Query classifier (unnamed part_002, 15-intent `QuerySheriff`) -/

namespace Classifier

open Pattern

/-- `locationPattern` (part_002:289), anchored:
`^(where\s+(is|are|can\s+i\s+find)|find\s+the|show\s+me|locate)\s`. -/
def locationAlts : List (List Pat) :=
  [[.lit "where", .ws, .lit "is", .ws1],
   [.lit "where", .ws, .lit "are", .ws1],
   [.lit "where", .ws, .lit "can", .ws, .lit "i", .ws, .lit "find", .ws1],
   [.lit "find", .ws, .lit "the", .ws1],
   [.lit "show", .ws, .lit "me", .ws1],
   [.lit "locate", .ws1]]

/-- `usagePattern` (part_002:290):
`(who|what|which).*(calls?|uses?|invokes?|depends\s+on|references?)`. -/
def usageAlts : List (List Pat) :=
  let subjects : List String := ["who", "what", "which"]
  let verbs : List (List Pat) :=
    [[.lit "call", .opt "s"], [.lit "use", .opt "s"], [.lit "invoke", .opt "s"],
     [.lit "depends", .ws, .lit "on"], [.lit "reference", .opt "s"]]
  subjects.foldr (fun s acc => verbs.map (fun v => .lit s :: .dotstar :: v) ++ acc) []

/-- `architecturePattern` (part_002:291). -/
def architectureAlts : List (List Pat) :=
  [[.lit "architecture"], [.lit "overall", .ws, .lit "structure"],
   [.lit "high", .wsDash, .lit "level"], [.lit "system", .ws, .lit "design"],
   [.lit "component", .ws, .lit "diagram"], [.lit "module", .ws, .lit "organization"]]

/-- `implementationPattern` (part_002:292). -/
def implementationAlts : List (List Pat) :=
  [[.lit "implement"], [.lit "add", .ws, .lit "feature"],
   [.lit "create", .ws, .lit "new"], [.lit "build", .ws, .lit "a"]]

/-- `debugPattern` (part_002:295):
`(why\s+(is|does|doesn't)|debug|error|bug|issue|problem|not\s+working|fails?|crash|exception)`. -/
def debugAlts : List (List Pat) :=
  [[.lit "why", .ws, .lit "is"], [.lit "why", .ws, .lit "does"],
   [.lit "why", .ws, .lit "doesn\x27t"],
   [.lit "debug"], [.lit "error"], [.lit "bug"], [.lit "issue"], [.lit "problem"],
   [.lit "not", .ws, .lit "working"], [.lit "fail", .opt "s"],
   [.lit "crash"], [.lit "exception"]]

/-- `comparisonPattern` (part_002:296). -/
def comparisonAlts : List (List Pat) :=
  [[.lit "difference", .ws, .lit "between"], [.lit "compare"],
   [.lit "vs", .opt "."], [.lit "versus"], [.lit "similar", .ws, .lit "to"],
   [.lit "differ", .opt "s", .ws, .lit "from"],
   [.lit "what\x27s", .ws, .lit "the", .ws, .lit "difference"]]

/-- `dependencyPattern` (part_002:297). -/
def dependencyAlts : List (List Pat) :=
  [[.lit "depend", .opt "s", .ws, .lit "on"], [.lit "dependencies"],
   [.lit "required", .ws, .lit "by"], [.lit "import", .opt "s"],
   [.lit "external"], [.lit "third", .wsDash, .lit "party"]]

/-- `refactoringPattern` (part_002:298). -/
def refactoringAlts : List (List Pat) :=
  [[.lit "refactor"], [.lit "improve"], [.lit "optimize"],
   [.lit "clean", .ws, .lit "up"], [.lit "restructure"], [.lit "simplify"],
   [.lit "better", .ws, .lit "way"]]

/-- `performancePattern` (part_002:299). -/
def performanceAlts : List (List Pat) :=
  [[.lit "performance"], [.lit "slow"], [.lit "fast"], [.lit "optimize"],
   [.lit "bottleneck"], [.lit "efficient"], [.lit "speed"], [.lit "latency"],
   [.lit "memory", .ws, .lit "usage"]]

/-- `dataFlowPattern` (part_002:300). -/
def dataFlowAlts : List (List Pat) :=
  [[.lit "data", .ws, .lit "flow"], [.lit "how", .ws, .lit "data"],
   [.lit "trace", .ws, .lit "data"], [.lit "data", .ws, .lit "path"],
   [.lit "value", .ws, .lit "propagat"], [.lit "passe", .opt "s", .ws, .lit "through"]]

/-- `securityPattern` (part_002:301). -/
def securityAlts : List (List Pat) :=
  [[.lit "security"], [.lit "vulnerable"], [.lit "sanitize"], [.lit "validation"],
   [.lit "injection"], [.lit "xss"], [.lit "csrf"], [.lit "authentication"],
   [.lit "authorization"]]

/-- `documentationPattern` (part_002:302). -/
def documentationAlts : List (List Pat) :=
  [[.lit "document"], [.lit "comment"], [.lit "explain"], [.lit "describe"],
   [.lit "what", .ws, .lit "does"], [.lit "purpose", .ws, .lit "of"],
   [.lit "meant", .ws, .lit "to", .ws, .lit "do"]]

/-- `examplePattern` (part_002:303). -/
def exampleAlts : List (List Pat) :=
  [[.lit "example"], [.lit "how", .ws, .lit "to", .ws, .lit "use"],
   [.lit "usage", .ws, .lit "example"], [.lit "sample"], [.lit "demonstrate"],
   [.lit "show", .ws, .lit "me", .ws, .lit "how"]]

/-- `testingPattern` (part_002:304). -/
def testingAlts : List (List Pat) :=
  [[.lit "test"], [.lit "unit", .ws, .lit "test"],
   [.lit "integration", .ws, .lit "test"], [.lit "mock"], [.lit "coverage"],
   [.lit "test", .ws, .lit "case"]]

end Classifier

/-! ## `symbolPattern` identifier scanner

Model of `FindAllString` for the classifier's identifier regex
(part_002:306)
`\b[A-Z][a-z]+(?:[A-Z][a-z]+)*\b|\b[a-z_][a-z0-9_]*\b|\b[A-Z_][A-Z0-9_]+\b`.
Each alternative starts and ends on a word boundary, and every backtracking
point of a greedy quantifier ends immediately before a word character where
the trailing `\b` necessarily fails, so maximal-munch parsing with a final
boundary check computes exactly the leftmost-first matches Go's engine
finds. -/

namespace SymbolRegex

def isLowerC (c : Char) : Bool := 'a' ≤ c && c ≤ 'z'

def isUpperC (c : Char) : Bool := 'A' ≤ c && c ≤ 'Z'

def isDigitC (c : Char) : Bool := '0' ≤ c && c ≤ '9'

def isWordChar (c : Char) : Bool := isLowerC c || isUpperC c || isDigitC c || c = '_'

/-- Boundary after a match: next character absent or not a word character. -/
def boundaryOk : List Char → Bool
  | [] => true
  | c :: _ => ¬ isWordChar c

/-- Length consumed by `(?:[A-Z][a-z]+)*`, maximal munch (fuel-bounded). -/
def pascalGroups : Nat → List Char → Nat
  | 0, _ => 0
  | _ + 1, [] => 0
  | fuel + 1, c :: rest =>
      if isUpperC c then
        let n := (rest.takeWhile isLowerC).length
        if n = 0 then 0 else 1 + n + pascalGroups fuel (rest.drop n)
      else 0

/-- Alternative 1: `[A-Z][a-z]+(?:[A-Z][a-z]+)*\b`. -/
def alt1 (cs : List Char) : Option Nat :=
  match cs with
  | [] => none
  | c :: rest =>
      if isUpperC c then
        let n := (rest.takeWhile isLowerC).length
        if n = 0 then none
        else
          let len := 1 + n + pascalGroups cs.length (rest.drop n)
          if boundaryOk (cs.drop len) then some len else none
      else none

/-- Alternative 2: `[a-z_][a-z0-9_]*\b`. -/
def alt2 (cs : List Char) : Option Nat :=
  match cs with
  | [] => none
  | c :: rest =>
      if isLowerC c || c = '_' then
        let len := 1 + (rest.takeWhile (fun d => isLowerC d || isDigitC d || d = '_')).length
        if boundaryOk (cs.drop len) then some len else none
      else none

/-- Alternative 3: `[A-Z_][A-Z0-9_]+\b`. -/
def alt3 (cs : List Char) : Option Nat :=
  match cs with
  | [] => none
  | c :: rest =>
      if isUpperC c || c = '_' then
        let n := (rest.takeWhile (fun d => isUpperC d || isDigitC d || d = '_')).length
        if n = 0 then none
        else if boundaryOk (cs.drop (1 + n)) then some (1 + n) else none
      else none

/-- First alternative that matches at this position (leftmost-first). -/
def tryAlts (cs : List Char) : Option Nat :=
  (alt1 cs).orElse (fun _ => (alt2 cs).orElse (fun _ => alt3 cs))

/-- Scan for successive non-overlapping matches (`FindAllString`),
tracking the previous character for the leading `\b`. -/
def findAllAux : Nat → Option Char → List Char → List String
  | 0, _, _ => []
  | _ + 1, _, [] => []
  | fuel + 1, prev, c :: rest =>
      let boundary := match prev with
        | none => true
        | some p => ¬ isWordChar p
      if boundary then
        match tryAlts (c :: rest) with
        | some len =>
            String.mk ((c :: rest).take len) ::
              findAllAux fuel (((c :: rest).take len).getLast?) ((c :: rest).drop len)
        | none => findAllAux fuel (some c) rest
      else findAllAux fuel (some c) rest

/-- Model of `symbolPattern.FindAllString(query, -1)`. -/
def findAll (s : String) : List String :=
  findAllAux s.toList.length none s.toList

end SymbolRegex

/-! ## Classifier cascade (unnamed part_002:347-805) -/

namespace Classifier

/-- The 15 intents (part_002:203-219). -/
inductive QueryType where
  | location | usage | understanding | implementation | architecture
  | debug | comparison | dependency | refactoring | performance
  | dataFlow | security | documentation | example | testing
deriving DecidableEq, Repr

/-- part_002:253-256. -/
structure Entity where
  name : String
  type : String
deriving DecidableEq, Repr

/-- part_002:242-251, with `float64` confidence as `ℚ`. -/
structure Classification where
  type : QueryType
  confidence : ℚ
  symbols : List String
  keywords : List String
  reasoning : String
  priority : Nat
  needsContext : Bool
  entities : List Entity
deriving DecidableEq, Repr

/-- The classifier's validated-symbol state (part_002:277-279): the sets
`validSymbols` and `validTypes` loaded from `kb_index.json`, as lists of
distinct names. -/
structure Classifier where
  validSymbols : List String
  validTypes : List String

/-- `isCommonWord` (part_002:788-796). -/
def isCommonWord (word : String) : Bool :=
  ["the", "this", "that", "these", "those",
   "what", "where", "when", "why", "how",
   "can", "will", "should", "would", "could",
   "does", "has", "have", "been", "are"].contains word

/-- `containsAny` (part_002:798-805). -/
def containsAny (text : String) (keywords : List String) : Bool :=
  keywords.any (fun k => GoStr.contains text k)

/-- Stop words of `extractKeywords` (part_002:766-772). -/
def stopWords : List String :=
  ["how", "does", "the", "a", "an",
   "is", "are", "what", "where", "when",
   "can", "will", "should", "would", "could",
   "this", "that", "these", "those", "of",
   "in", "on", "at", "to", "for", "with"]

/-- `extractKeywords` (part_002:765-786): split on non-identifier
characters, keep non-stop-words longer than 2. -/
def extractKeywords (queryLower : String) : List String :=
  (GoStr.fieldsFunc queryLower
      (fun c => ¬ (c.isAlpha || c.isDigit || c = '_'))).filter
    (fun w => ¬ stopWords.contains w ∧ w.length > 2)

/-- Deduplicating, common-word-filtering pass of `extractSymbols`
(part_002:719-725). -/
def filterSymbolMatches : List String → List String → List String
  | [], _ => []
  | m :: rest, seen =>
      if ¬ isCommonWord (GoStr.toLower m) ∧ ¬ seen.contains m then
        m :: filterSymbolMatches rest (m :: seen)
      else filterSymbolMatches rest seen

/-- `extractSymbols` (part_002:714-727). -/
def extractSymbols (query : String) : List String :=
  filterSymbolMatches (SymbolRegex.findAll query) []

/-- `validateSymbols` (part_002:729-742, classifier.go:253-267): with no KB
index loaded every extracted symbol passes through; otherwise keep exactly
the symbols present in `validSymbols`. -/
def validateSymbols (c : Classifier) (symbols : List String) : List String :=
  if c.validSymbols.length = 0 then symbols
  else symbols.filter (fun s => c.validSymbols.contains s)

/-- `extractEntities` (part_002:744-763). -/
def extractEntities (c : Classifier) (symbols : List String) : List Entity :=
  symbols.map (fun s =>
    { name := s,
      type := if c.validTypes.contains s then "type"
              else if c.validSymbols.contains s then "function"
              else "unknown" })

/-- `level1PatternMatch` (part_002:371-526): the fixed priority chain of
regex checks; the first hit returns a confidence-0.95 classification with
no symbols, keywords, or entities. -/
def level1PatternMatch (queryLower : String) : Option Classification :=
  if Pattern.rxMatch debugAlts queryLower then
    some { type := .debug, confidence := 95/100, symbols := [], keywords := [],
           reasoning := "Level 1: debug/error pattern match", priority := 1,
           needsContext := true, entities := [] }
  else if Pattern.rxMatch comparisonAlts queryLower then
    some { type := .comparison, confidence := 95/100, symbols := [], keywords := [],
           reasoning := "Level 1: comparison pattern match", priority := 2,
           needsContext := true, entities := [] }
  else if Pattern.rxMatch exampleAlts queryLower then
    some { type := .example, confidence := 95/100, symbols := [], keywords := [],
           reasoning := "Level 1: example/usage pattern match", priority := 2,
           needsContext := true, entities := [] }
  else if Pattern.rxMatch dataFlowAlts queryLower then
    some { type := .dataFlow, confidence := 95/100, symbols := [], keywords := [],
           reasoning := "Level 1: data flow pattern match", priority := 3,
           needsContext := true, entities := [] }
  else if Pattern.rxMatch securityAlts queryLower then
    some { type := .security, confidence := 95/100, symbols := [], keywords := [],
           reasoning := "Level 1: security pattern match", priority := 1,
           needsContext := true, entities := [] }
  else if Pattern.rxMatch performanceAlts queryLower then
    some { type := .performance, confidence := 95/100, symbols := [], keywords := [],
           reasoning := "Level 1: performance pattern match", priority := 2,
           needsContext := true, entities := [] }
  else if Pattern.rxMatch refactoringAlts queryLower then
    some { type := .refactoring, confidence := 95/100, symbols := [], keywords := [],
           reasoning := "Level 1: refactoring pattern match", priority := 3,
           needsContext := true, entities := [] }
  else if Pattern.rxMatch dependencyAlts queryLower then
    some { type := .dependency, confidence := 95/100, symbols := [], keywords := [],
           reasoning := "Level 1: dependency pattern match", priority := 2,
           needsContext := false, entities := [] }
  else if Pattern.rxMatch testingAlts queryLower then
    some { type := .testing, confidence := 95/100, symbols := [], keywords := [],
           reasoning := "Level 1: testing pattern match", priority := 3,
           needsContext := true, entities := [] }
  else if Pattern.rxMatch documentationAlts queryLower then
    some { type := .documentation, confidence := 95/100, symbols := [], keywords := [],
           reasoning := "Level 1: documentation pattern match", priority := 3,
           needsContext := true, entities := [] }
  else if Pattern.rxMatchAnchored locationAlts queryLower then
    some { type := .location, confidence := 95/100, symbols := [], keywords := [],
           reasoning := "Level 1: location pattern match", priority := 5,
           needsContext := false, entities := [] }
  else if Pattern.rxMatch usageAlts queryLower then
    some { type := .usage, confidence := 95/100, symbols := [], keywords := [],
           reasoning := "Level 1: usage pattern match", priority := 4,
           needsContext := false, entities := [] }
  else if Pattern.rxMatch architectureAlts queryLower then
    some { type := .architecture, confidence := 95/100, symbols := [], keywords := [],
           reasoning := "Level 1: architecture pattern match", priority := 3,
           needsContext := true, entities := [] }
  else if Pattern.rxMatch implementationAlts queryLower then
    some { type := .implementation, confidence := 95/100, symbols := [], keywords := [],
           reasoning := "Level 1: implementation pattern match", priority := 2,
           needsContext := true, entities := [] }
  else none

/-- `level2SymbolAnalysis` (part_002:528-606). -/
def level2SymbolAnalysis (queryLower : String) (symbols : List String)
    (entities : List Entity) : Option Classification :=
  if symbols.length = 0 then none
  else
    let keywords := extractKeywords queryLower
    if symbols.length ≥ 2 ∧
        containsAny queryLower ["difference", "compare", "vs", "versus", "similar"] then
      some { type := .comparison, confidence := 92/100, symbols := symbols,
             keywords := keywords, entities := entities,
             reasoning := "Level 2: multiple symbols with comparison keywords",
             priority := 2, needsContext := true }
    else if symbols.length = 1 ∧
        containsAny queryLower ["where", "find", "locate", "show"] then
      some { type := .location, confidence := 90/100, symbols := symbols,
             keywords := keywords, entities := entities,
             reasoning := "Level 2: single symbol with location keywords",
             priority := 5, needsContext := false }
    else if symbols.length = 1 ∧
        containsAny queryLower ["calls", "uses", "invokes", "called by", "used by"] then
      some { type := .usage, confidence := 90/100, symbols := symbols,
             keywords := keywords, entities := entities,
             reasoning := "Level 2: single symbol with usage keywords",
             priority := 4, needsContext := false }
    else if symbols.length = 1 ∧
        containsAny queryLower ["example", "how to use", "sample"] then
      some { type := .example, confidence := 90/100, symbols := symbols,
             keywords := keywords, entities := entities,
             reasoning := "Level 2: single symbol with example keywords",
             priority := 2, needsContext := true }
    else if symbols.length > 1 then
      some { type := .understanding, confidence := 85/100, symbols := symbols,
             keywords := keywords, entities := entities,
             reasoning := "Level 2: multiple symbols detected",
             priority := 3, needsContext := true }
    else none

/-- `level3KeywordAnalysis` (part_002:608-712). -/
def level3KeywordAnalysis (queryLower : String) (symbols : List String)
    (entities : List Entity) : Classification :=
  let keywords := extractKeywords queryLower
  if containsAny queryLower ["debug", "error", "bug", "issue", "problem",
      "crash", "exception", "not working", "fails"] then
    { type := .debug, confidence := 85/100, symbols := symbols,
      keywords := keywords, entities := entities,
      reasoning := "Level 3: debug keywords detected", priority := 1,
      needsContext := true }
  else if containsAny queryLower ["performance", "slow", "optimize",
      "bottleneck", "efficient", "speed", "memory"] then
    { type := .performance, confidence := 85/100, symbols := symbols,
      keywords := keywords, entities := entities,
      reasoning := "Level 3: performance keywords detected", priority := 2,
      needsContext := true }
  else if containsAny queryLower ["refactor", "improve", "clean up",
      "restructure", "simplify", "better way"] then
    { type := .refactoring, confidence := 85/100, symbols := symbols,
      keywords := keywords, entities := entities,
      reasoning := "Level 3: refactoring keywords detected", priority := 3,
      needsContext := true }
  else if containsAny queryLower ["test", "unit test", "mock", "coverage",
      "test case"] then
    { type := .testing, confidence := 85/100, symbols := symbols,
      keywords := keywords, entities := entities,
      reasoning := "Level 3: testing keywords detected", priority := 3,
      needsContext := true }
  else if containsAny queryLower ["implement", "add", "create", "build"] then
    { type := .implementation, confidence := 80/100, symbols := symbols,
      keywords := keywords, entities := entities,
      reasoning := "Level 3: implementation keywords detected", priority := 2,
      needsContext := true }
  else if containsAny queryLower ["architecture", "structure", "design",
      "overview", "system"] then
    { type := .architecture, confidence := 80/100, symbols := symbols,
      keywords := keywords, entities := entities,
      reasoning := "Level 3: architecture keywords detected", priority := 3,
      needsContext := true }
  else
    { type := .understanding, confidence := 75/100, symbols := symbols,
      keywords := keywords, entities := entities,
      reasoning := "Level 3: general understanding query (default)",
      priority := 3, needsContext := true }

/-- Levels 2 and 3 of `Classify` (part_002:356-368). -/
def classifyLevels23 (c : Classifier) (query queryLower : String) : Classification :=
  let symbols := extractSymbols query
  let validSymbols := validateSymbols c symbols
  let entities := extractEntities c validSymbols
  if validSymbols.length > 0 then
    match level2SymbolAnalysis queryLower validSymbols entities with
    | some r => r
    | none => level3KeywordAnalysis queryLower validSymbols entities
  else level3KeywordAnalysis queryLower validSymbols entities

/-- `Classify` (part_002:347-369): trim, lower, then the three-level
cascade; a level-1 hit (always confidence 0.95) returns immediately. -/
def classify (c : Classifier) (query0 : String) : Classification :=
  let query := GoStr.trimSpace query0
  let queryLower := GoStr.toLower query
  match level1PatternMatch queryLower with
  | some r => if r.confidence ≥ 95/100 then r else classifyLevels23 c query queryLower
  | none => classifyLevels23 c query queryLower

end Classifier

/-! ## Context builder (`internal/query/context_builder.go`)

Scores (`float64` in Go) are modelled as `ℚ`; every score the pipeline
produces is a small decimal and no comparison relevant to a claim sits at a
binary-rounding boundary.  The semantic strategy embeds the query through
an external subprocess and ranks by floating-point cosine similarity; it is
modelled as the oracle `semanticSearch` carried by the builder (`none`
models an embedder error), so theorems quantify over every possible
semantic result.  Go maps keyed by chunk id are modelled as association
lists in first-insertion order, and `sort.Slice` as an insertion sort
consistent with the same comparator. -/

namespace ContextBuilder

/-- The `llm.max_tokens` configuration consumed by `BuildContext`. -/
structure Config where
  maxTokens : Int

/-- context_builder.go:32-43. -/
structure Chunk where
  id : String
  chunkType : String
  file : String
  startLine : Int
  endLine : Int
  content : String
  tokens : Nat
  symbols : List String
  name : String
  importance : ℚ
deriving DecidableEq, Repr

/-- context_builder.go:45-49. -/
structure Relationship where
  type : String
  target : String
  distance : Nat
deriving DecidableEq, Repr

/-- context_builder.go:51-58 (the embedded `Chunk` as a field). -/
structure ScoredChunk where
  chunk : Chunk
  score : ℚ
  distance : Nat
  fromID : String
  matchType : String
  matchDetails : String
deriving DecidableEq, Repr

/-- The in-memory builder state after `ContextWindowCreator`. -/
structure Builder where
  chunks : List Chunk
  callGraph : List (String × List Relationship)
  hasCallGraph : Bool
  hasEmbeddings : Bool
  semanticSearch : String → Option (List ScoredChunk)
  cfg : Config

/-- `hasUpperCase` (context_builder.go:567-574). -/
def hasUpperCase (s : String) : Bool :=
  s.toList.any (fun r => 'A' ≤ r && r ≤ 'Z')

/-- The punctuation cutset of context_builder.go:534. -/
def symbolTrimCutset : List Char :=
  ['.', ',', '!', '?', ';', ':', '\x27', '"', '(', ')', '[', ']', '\x7b', '\x7d']

/-- `extractPotentialSymbols` (context_builder.go:529-565): words longer
than 2 that look like identifiers (underscore or internal uppercase) or
carry a known verb prefix/suffix; a word satisfying both tests is appended
twice, as in the source. -/
def potentialSymbolsOf : List String → List String
  | [] => []
  | w0 :: rest =>
      let word := GoStr.trimChars w0 symbolTrimCutset
      let here :=
        if word.length > 2 then
          (if GoStr.contains word "_" || hasUpperCase word then [word] else []) ++
          (let lower := GoStr.toLower word
           if GoStr.endsWith lower "ed" ||
              GoStr.startsWith lower "get" || GoStr.startsWith lower "set" ||
              GoStr.startsWith lower "create" || GoStr.startsWith lower "delete" ||
              GoStr.startsWith lower "remove" || GoStr.startsWith lower "update" ||
              GoStr.startsWith lower "handle" || GoStr.startsWith lower "init" ||
              GoStr.startsWith lower "download" || GoStr.startsWith lower "upload" ||
              GoStr.startsWith lower "process" || GoStr.startsWith lower "add" ||
              GoStr.startsWith lower "build" || GoStr.startsWith lower "setup"
           then [word] else [])
        else []
      here ++ potentialSymbolsOf rest

def extractPotentialSymbols (query : String) : List String :=
  potentialSymbolsOf (GoStr.fields query)

/-- Stop words of `extractQueryKeywords` (context_builder.go:784-790). -/
def cbStopWords : List String :=
  ["how", "does", "the", "a", "an",
   "is", "are", "what", "where", "when",
   "can", "will", "should", "would", "could",
   "this", "that", "these", "those", "of",
   "in", "on", "at", "to", "for", "with"]

/-- `extractQueryKeywords` (context_builder.go:783-817): split on
punctuation/space, trim quotes, keep non-stop-words longer than 2, and for
underscored words additionally their long-enough parts. -/
def queryKeywordsOf : List String → List String
  | [] => []
  | w0 :: rest =>
      let word := GoStr.trimChars w0 ['"', '\x27']
      let here :=
        if word.length > 2 ∧ ¬ cbStopWords.contains word then
          word ::
            (if GoStr.contains word "_" then
              (GoStr.splitOnChar '_' word).filter
                (fun part => part.length > 2 ∧ ¬ cbStopWords.contains part)
            else [])
        else []
      here ++ queryKeywordsOf rest

def extractQueryKeywords (queryLower : String) : List String :=
  queryKeywordsOf (GoStr.fieldsFunc queryLower (fun r =>
    r = ' ' || r = ',' || r = '.' || r = '!' || r = '?' ||
    r = ';' || r = ':' || r = '(' || r = ')' || r = '[' || r = ']'))

/-- The matches `exactSymbolSearch` (context_builder.go:384-427) emits for
one chunk: at most one name match (score 100) and one match per equal
symbol (score 90). -/
def exactForChunk (ps : List String) (chunk : Chunk) : List ScoredChunk :=
  let nameLower := GoStr.toLower chunk.name
  let nameHit :=
    if ps.any (fun q => nameLower = GoStr.toLower q) then
      [{ chunk := chunk, score := 100, distance := 0, fromID := "",
         matchType := "", matchDetails := "Exact match: " ++ chunk.name }]
    else []
  let symHits := chunk.symbols.filterMap (fun s =>
    if ps.any (fun q => GoStr.toLower s = GoStr.toLower q) then
      some { chunk := chunk, score := 90, distance := 0, fromID := "",
             matchType := "", matchDetails := "Symbol match: " ++ s }
    else none)
  nameHit ++ symHits

/-- `exactSymbolSearch` (context_builder.go:384-427). -/
def exactSymbolSearch (chunks : List Chunk) (query : String) : List ScoredChunk :=
  let ps := extractPotentialSymbols query
  (chunks.map (exactForChunk ps)).flatten

/-- Name-section score of `keywordSearch` (context_builder.go:443-454):
+20 and stop on equality, +10 per containment. -/
def nameScore (nameLower : String) : List String → ℚ
  | [] => 0
  | q :: rest =>
      let ql := GoStr.toLower q
      if nameLower = ql then 20
      else if GoStr.contains nameLower ql then 10 + nameScore nameLower rest
      else nameScore nameLower rest

/-- Per-symbol query-symbol score (context_builder.go:460-471): +15 and
stop on equality, +7 per containment. -/
def symQueryScore (symbolLower : String) : List String → ℚ
  | [] => 0
  | q :: rest =>
      let ql := GoStr.toLower q
      if symbolLower = ql then 15
      else if GoStr.contains symbolLower ql then 7 + symQueryScore symbolLower rest
      else symQueryScore symbolLower rest

/-- Per-symbol keyword score (context_builder.go:473-479). -/
def symKeywordScore (symbolLower : String) (keywords : List String) : ℚ :=
  keywords.foldl (fun acc k =>
    if symbolLower = k then acc + 10
    else if GoStr.contains symbolLower k then acc + 5
    else acc) 0

/-- `keywordSearch` score of one chunk (context_builder.go:436-506). -/
def keywordScore (keywords ps : List String) (chunk : Chunk) : ℚ :=
  let contentLower := GoStr.toLower chunk.content
  let nameLower := GoStr.toLower chunk.name
  let fileLower := GoStr.toLower chunk.file
  let s1 := nameScore nameLower ps
  let s2 := chunk.symbols.foldl (fun acc sym =>
    let symbolLower := GoStr.toLower sym
    acc + symQueryScore symbolLower ps + symKeywordScore symbolLower keywords) 0
  let s3 := keywords.foldl (fun acc k =>
    if GoStr.contains contentLower k then acc + 2 else acc) 0
  let s4 := keywords.foldl (fun acc k =>
    if GoStr.contains fileLower k then acc + 1 else acc) 0
  let s5 : ℚ :=
    if chunk.chunkType = "function" then 1
    else if chunk.chunkType = "class" then 4/5
    else if chunk.chunkType = "method" then 3/5
    else 0
  s1 + s2 + s3 + s4 + s5

/-- Pure score ordering of `sort.Slice(..., Score > Score)`: the sorted
output has pairwise non-increasing scores. -/
def scoreDescLE (a b : ScoredChunk) : Prop := b.score ≤ a.score

instance : DecidableRel scoreDescLE := fun a b => by
  unfold scoreDescLE; infer_instance

/-- `keywordSearch` (context_builder.go:429-527): score every chunk, keep
positive scores, sort by score, truncate to `topK`.  (`MatchDetails` is a
human-readable trace; it is not reconstructed here and never observed by a
claim.) -/
def keywordSearch (chunks : List Chunk) (query : String) (topK : Nat) :
    List ScoredChunk :=
  let queryLower := GoStr.toLower query
  let keywords := extractQueryKeywords queryLower
  let ps := extractPotentialSymbols query
  let scored := chunks.filterMap (fun chunk =>
    let score := keywordScore keywords ps chunk
    if score > 0 then
      some { chunk := chunk, score := score, distance := 0, fromID := "",
             matchType := "", matchDetails := "" }
    else none)
  (List.insertionSort scoreDescLE scored).take topK

/-- Association-list update for the `allCandidates` map keyed by chunk id
(insertion order retained, overwrite in place). -/
def upsertCandidate (m : List ScoredChunk) (c : ScoredChunk) : List ScoredChunk :=
  if m.any (fun x => x.chunk.id = c.chunk.id) then
    m.map (fun x => if x.chunk.id = c.chunk.id then c else x)
  else m ++ [c]

def findCandidate (m : List ScoredChunk) (id : String) : Option ScoredChunk :=
  m.find? (fun x => x.chunk.id = id)

/-- The final comparator of `multiStrategySearch` (context_builder.go:
365-374): chunks whose fused match type is exactly `"exact"` sort first;
otherwise higher score first. -/
def candLess (a b : ScoredChunk) : Bool :=
  if a.matchType = "exact" ∧ ¬ b.matchType = "exact" then true
  else if ¬ a.matchType = "exact" ∧ b.matchType = "exact" then false
  else decide (b.score < a.score)

/-- Sorted-output relation for `candLess`: later elements never compare
strictly before earlier ones. -/
def candLE (a b : ScoredChunk) : Prop := candLess b a = false

instance : DecidableRel candLE := fun a b => by
  unfold candLE; infer_instance

/-- The comparator is total (needed for `sort.Slice`'s contract to
determine the exact-first property of the sorted output). -/
instance : IsTotal ScoredChunk candLE where
  total a b := by
    unfold candLE candLess
    by_cases hab : a.matchType = "exact" <;>
      by_cases hbb : b.matchType = "exact" <;>
      simp [hab, hbb, decide_eq_false_iff_not, not_lt]
    · exact le_total b.score a.score
    · exact le_total b.score a.score

instance : IsTrans ScoredChunk candLE where
  trans a b c hab hbc := by
    unfold candLE candLess at hab hbc ⊢
    by_cases ha : a.matchType = "exact" <;>
      by_cases hb : b.matchType = "exact" <;>
      by_cases hc : c.matchType = "exact" <;>
      simp [ha, hb, hc, decide_eq_false_iff_not, not_lt] at hab hbc ⊢ <;>
      exact le_trans hbc hab

/-- `multiStrategySearch` (context_builder.go:313-381). -/
def multiStrategySearch (cb : Builder) (query : String) (topK : Nat) :
    List ScoredChunk :=
  let exacts := (exactSymbolSearch cb.chunks query).map
    (fun m => { m with matchType := "exact" })
  let m1 := exacts.foldl upsertCandidate []
  let kws := keywordSearch cb.chunks query topK
  let m2 := kws.foldl (fun m mk =>
    match findCandidate m mk.chunk.id with
    | some existing =>
        upsertCandidate m { mk with score := max existing.score mk.score + 2,
                                    matchType := "exact+keyword" }
    | none => upsertCandidate m { mk with matchType := "keyword" }) m1
  let m3 :=
    if cb.hasEmbeddings then
      match cb.semanticSearch query with
      | some semanticMatches =>
          semanticMatches.foldl (fun m mk =>
            match findCandidate m mk.chunk.id with
            | some existing =>
                let mt := if existing.matchType = "exact" then "exact+semantic"
                          else "keyword+semantic"
                upsertCandidate m { mk with score := existing.score + mk.score * (1/2),
                                            matchType := mt }
            | none => upsertCandidate m { mk with matchType := "semantic" }) m2
      | none => m2
    else m2
  (List.insertionSort candLE m3).take topK

def lookupGraph (g : List (String × List Relationship)) (k : String) :
    Option (List Relationship) :=
  (g.find? (fun p => p.1 = k)).map (fun p => p.2)

/-- The `contains` helper (context_builder.go:838-845). -/
def containsStr (l : List String) (s : String) : Bool :=
  l.any (fun x => x = s)

/-- One call-graph edge expansion step of `buildContextWithGraph`
(context_builder.go:620-649): weight the candidate's score by the edge
kind, find the first chunk carrying the target symbol, and keep the best
score per chunk id. -/
def expandRel (cb : Builder) (candidate : ScoredChunk)
    (m : List ScoredChunk) (rel : Relationship) : List ScoredChunk :=
  let weighted : Option (ℚ × Nat) :=
    if rel.type = "calls" ∨ rel.type = "called_by" then
      some (candidate.score * (9/10), 1)
    else if rel.distance ≤ 2 then some (candidate.score * (3/5), rel.distance)
    else none
  match weighted with
  | none => m
  | some sd =>
    match cb.chunks.find? (fun ch => containsStr ch.symbols rel.target) with
    | none => m
    | some ch =>
      let entry : ScoredChunk :=
        { chunk := ch, score := sd.1, distance := sd.2,
          fromID := candidate.chunk.id, matchType := "", matchDetails := "" }
      match findCandidate m ch.id with
      | some existing => if sd.1 > existing.score then upsertCandidate m entry else m
      | none => upsertCandidate m entry

/-- `buildContextWithGraph` (context_builder.go:605-662): expand the top 20
candidates one hop through the call graph, then sort purely by score.
(The `budget` parameter is accepted and ignored, as in the source.) -/
def buildContextWithGraph (cb : Builder) (candidates : List ScoredChunk)
    (_budget : Int) : List ScoredChunk :=
  let expanded0 := candidates.foldl upsertCandidate []
  let expanded := (candidates.take 20).foldl (fun m cand =>
    cand.chunk.symbols.foldl (fun m sym =>
      match lookupGraph cb.callGraph sym with
      | some rels => rels.foldl (expandRel cb cand) m
      | none => m) m) expanded0
  List.insertionSort scoreDescLE expanded

/-- `buildContextWithoutGraph` (context_builder.go:664-715): below 20
candidates, return them untouched; otherwise boost chunks of files
contributing at least 3 candidates by 0.2 and sort purely by score.  (The
hot-file average scores computed by the source only order the map
construction and cannot change membership or the final sort.) -/
def buildContextWithoutGraph (candidates : List ScoredChunk)
    (_budget : Int) : List ScoredChunk :=
  if candidates.length < 20 then candidates
  else
    let boosted := candidates.map (fun c =>
      if candidates.countP (fun x => x.chunk.file = c.chunk.file) ≥ 3 then
        { c with score := c.score + 1/5 }
      else c)
    List.insertionSort scoreDescLE boosted

/-- `canMerge` (context_builder.go:847-858). -/
def canMerge (a b : Chunk) : Bool :=
  if ¬ a.file = b.file then false
  else
    let gap : Int :=
      if a.endLine < b.startLine then b.startLine - a.endLine
      else if b.endLine < a.startLine then a.startLine - b.endLine
      else 0
    gap ≤ 5

/-- First-occurrence deduplication (the `symbolMap` loop of
context_builder.go:877-884). -/
def dedupStringsAux : List String → List String → List String
  | [], _ => []
  | s :: rest, seen =>
      if seen.contains s then dedupStringsAux rest seen
      else s :: dedupStringsAux rest (s :: seen)

def dedupStrings (l : List String) : List String :=
  dedupStringsAux l []

/-- `mergeChunks` (context_builder.go:860-898). -/
def mergeChunks (a b : Chunk) : Chunk :=
  { id := a.id, chunkType := a.chunkType, file := a.file,
    startLine := min a.startLine b.startLine,
    endLine := max a.endLine b.endLine,
    content :=
      if b.startLine > a.endLine then a.content ++ "\n" ++ b.content
      else if a.startLine > b.endLine then b.content ++ "\n" ++ a.content
      else a.content,
    tokens := a.tokens + b.tokens,
    symbols := dedupStrings (a.symbols ++ b.symbols),
    name := a.name,
    importance := max a.importance b.importance }

/-- The selection loop of `selectChunks` (context_builder.go:717-746), with
the selected list accumulated in reverse (its head is Go's
`selected[len(selected)-1]`).  Appending costs `tokens + 20`; merging into
the previous chunk costs only `tokens` (the header overhead is not paid
again); the first candidate that would overflow the budget stops the
loop. -/
def selectChunksAux (budget : Int) :
    List ScoredChunk → List Chunk → Nat → List Chunk
  | [], acc, _ => acc.reverse
  | sc :: rest, acc, cur =>
      let chunkTokens := sc.chunk.tokens + 20
      if (cur + chunkTokens : Int) > budget then acc.reverse
      else
        match acc with
        | last :: others =>
            if canMerge last sc.chunk then
              selectChunksAux budget rest (mergeChunks last sc.chunk :: others)
                (cur + sc.chunk.tokens)
            else
              selectChunksAux budget rest (sc.chunk :: last :: others)
                (cur + chunkTokens)
        | [] => selectChunksAux budget rest [sc.chunk] (cur + chunkTokens)

/-- `selectChunks` (context_builder.go:717-746). -/
def selectChunks (scored : List ScoredChunk) (budget : Int) : List Chunk :=
  selectChunksAux budget scored [] 0

/-- types.ContextChunk as assembled (context_builder.go:757-763). -/
structure ContextChunk where
  file : String
  startLine : Int
  endLine : Int
  content : String
  importance : ℚ
deriving DecidableEq, Repr

/-- types.ContextWindow (context_builder.go:771-775). -/
structure ContextWindow where
  chunks : List ContextChunk
  totalTokens : Nat
  sources : List String
deriving DecidableEq, Repr

/-- `assembleContext` (context_builder.go:748-776): the window's total is
each chunk's token estimate plus a 20-token header; sources are the
deduplicated files (modelled in first-occurrence order; the Go map
iteration order is unspecified). -/
def assembleContext (chunks : List Chunk) : ContextWindow :=
  { chunks := chunks.map (fun c =>
      { file := c.file, startLine := c.startLine, endLine := c.endLine,
        content := c.content, importance := c.importance }),
    totalTokens := chunks.foldl (fun t c => t + c.tokens + 20) 0,
    sources := dedupStrings (chunks.map (fun c => c.file)) }

/-- Go `int(x)` truncation toward zero on a rational. -/
def goTrunc (x : ℚ) : Int := if 0 ≤ x then ⌊x⌋ else -⌊-x⌋

/-- The token budget derived by `BuildContext` (context_builder.go:289-295):
`(maxTokens - len(query)/4 - 150 - 200 - 2000) * 0.85`, truncated to int. -/
def tokenBudget (cfg : Config) (query : String) : Int :=
  let queryTokens : Int := (GoStr.byteLen query / 4 : Nat)
  let available : Int := cfg.maxTokens - queryTokens - 150 - 200 - 2000
  goTrunc ((available : ℚ) * (85/100))

/-- `BuildContext` (context_builder.go:288-310): derive the budget (no
negativity check), search, expand or boost, select under budget, assemble.
The function never returns an error (`return cb.assembleContext(selected),
nil`). -/
def buildContext (cb : Builder) (query : String) : Except String ContextWindow :=
  let budget := tokenBudget cb.cfg query
  let candidates := multiStrategySearch cb query 100
  let scored :=
    if cb.hasCallGraph then buildContextWithGraph cb candidates budget
    else buildContextWithoutGraph candidates budget
  let selected := selectChunks scored budget
  .ok (assembleContext selected)

end ContextBuilder

/-! ## Vector-store loading and builder construction
(`ContextWindowCreator`, context_builder.go:90-192, 247-286) -/

namespace ContextBuilder

/-- context_builder.go:74-81. -/
structure Metadata where
  filePath : String
  language : String
  lineStart : Int
  lineEnd : Int
  name : String
  complexity : Int

/-- context_builder.go:67-72. -/
structure EmbeddingChunk where
  id : String
  chunkType : String
  content : String
  metadata : Metadata

/-- context_builder.go:60-65. -/
structure EmbeddingsData where
  model : String
  dimension : Nat
  totalChunks : Int
  embeddings : List EmbeddingChunk

/-- `extractSymbolsFromContent` (context_builder.go:194-217). -/
def extractSymbolsFromContent (content name : String) : List String :=
  let base := if ¬ name = "" then [name] else []
  let fromLines := (GoStr.splitOnChar '\n' content).filterMap (fun line0 =>
    let line := GoStr.trimSpace line0
    if GoStr.startsWith line "- " then
      let p := String.mk (GoStr.takeBeforeSub " (".toList line.toList)
      let funcName := GoStr.trimSpace
        (if GoStr.startsWith p "- " then String.mk (p.toList.drop 2) else p)
      if ¬ funcName = "" ∧ ¬ funcName = "..." then some funcName else none
    else none)
  base ++ fromLines

/-- `calculateImportance` (context_builder.go:219-245). -/
def calculateImportance (chunkType : String) (complexity : Int) : ℚ :=
  let base : ℚ :=
    if chunkType = "function" then 7/10
    else if chunkType = "class" then 4/5
    else if chunkType = "method" then 3/5
    else if chunkType = "file" then 2/5
    else 1/2
  let base := if complexity > 5 then base + 1/10 else base
  let base := if complexity > 10 then base + 1/10 else base
  if base > 1 then 1 else base

/-- The per-chunk conversion of `loadChunks` (context_builder.go:173-189):
token estimate `len(content)/4`. -/
def chunkOfEmbedding (e : EmbeddingChunk) : Chunk :=
  { id := e.id, chunkType := e.chunkType, file := e.metadata.filePath,
    startLine := e.metadata.lineStart, endLine := e.metadata.lineEnd,
    content := e.content, tokens := GoStr.byteLen e.content / 4,
    symbols := extractSymbolsFromContent e.content e.metadata.name,
    name := e.metadata.name,
    importance := calculateImportance e.chunkType e.metadata.complexity }

/-- Little-endian `uint32` from four bytes (`binary.LittleEndian.Uint32`). -/
def leU32 (b0 b1 b2 b3 : Nat) : Nat :=
  b0 ||| (b1 <<< 8) ||| (b2 <<< 16) ||| (b3 <<< 24)

/-- `n` little-endian 32-bit words from a byte list.  (On a file shorter
than its header promises, Go would panic with an out-of-range slice; no
claim exercises that path and the model simply stops.) -/
def wordsLE : Nat → List Nat → List Nat
  | 0, _ => []
  | n + 1, b0 :: b1 :: b2 :: b3 :: rest => leU32 b0 b1 b2 b3 :: wordsLE n rest
  | _ + 1, _ => []

/-- The vector-parsing loop of `loadEmbeddings` (context_builder.go:
142-153); `float32` values are kept as their raw bit patterns, which is all
`math.Float32frombits` reinterprets. -/
def parseVectors : Nat → Nat → List Nat → List (List Nat)
  | 0, _, _ => []
  | n + 1, dim, bytes => wordsLE dim bytes :: parseVectors n dim (bytes.drop (4 * dim))

/-- `loadEmbeddings` (context_builder.go:123-156): reject a file shorter
than its 8-byte header, reject a dimension different from the configured
`embeddings.dimension`, otherwise parse `count · dimension` vectors. -/
def loadEmbeddings (cfgDimension : Nat) (data : List Nat) :
    Except String (List (List Nat)) :=
  match data with
  | b0 :: b1 :: b2 :: b3 :: b4 :: b5 :: b6 :: b7 :: rest =>
      let numEmbeddings := leU32 b0 b1 b2 b3
      let dimension := leU32 b4 b5 b6 b7
      if ¬ dimension = cfgDimension then
        .error ("dimension mismatch: expected " ++ toString cfgDimension ++
                ", got " ++ toString dimension)
      else
        .ok (parseVectors numEmbeddings dimension rest)
  | _ => .error "invalid embeddings file: too short"

/-- The parsed `kb_call_graph.json` (context_builder.go:83-88):
function name → (calls, called_by). -/
structure CallGraphData where
  functions : List (String × List String × List String)

/-- The relationship construction of `loadCallGraph`
(context_builder.go:261-283). -/
def callGraphRelationships (g : CallGraphData) : List (String × List Relationship) :=
  g.functions.map (fun f =>
    (f.1, f.2.1.map (fun callee =>
            ({ type := "calls", target := callee, distance := 1 } : Relationship)) ++
          f.2.2.map (fun caller =>
            ({ type := "called_by", target := caller, distance := 1 } : Relationship))))

/-- What `ContextWindowCreator` finds on disk: `none` models an unreadable
or unparsable file. -/
structure CreatorInput where
  embBin : Option (List Nat)
  embJson : Option EmbeddingsData
  callGraphJson : Option CallGraphData

/-- `ContextWindowCreator` (context_builder.go:90-121): a failing
`loadEmbeddings` (unreadable file, short file, or dimension mismatch) is
logged and swallowed — `hasEmbeddings` becomes `false` and construction
continues; a failing `loadChunks` aborts construction; `loadCallGraph`
failures silently leave the builder without a graph. -/
def contextWindowCreator (cfgDimension : Nat) (cfg : Config) (inp : CreatorInput)
    (semantic : String → Option (List ScoredChunk)) : Except String Builder :=
  let hasEmbeddings :=
    match inp.embBin with
    | none => false
    | some bytes =>
        match loadEmbeddings cfgDimension bytes with
        | .ok _ => true
        | .error _ => false
  match inp.embJson with
  | none => .error "failed to load chunks"
  | some embData =>
      let chunks := embData.embeddings.map chunkOfEmbedding
      let cg :=
        match inp.callGraphJson with
        | none => []
        | some g => callGraphRelationships g
      .ok { chunks := chunks, callGraph := cg,
            hasCallGraph := ¬ cg.length = 0,
            hasEmbeddings := hasEmbeddings,
            semanticSearch := semantic, cfg := cfg }

end ContextBuilder

/-! ## Query router (`internal/query/router.go`, first file)

`Query` checks the cache, classifies, and dispatches: Location and Usage
are handled from the KB index and call graph alone; Understanding,
Implementation, Architecture and every other intent (the `default:` arm)
initialize the context builder and query the LLM.  The LLM round trip —
`ensureContextBuilder` + `BuildContext` + `llmClient.Query` — is I/O, so it
is modelled as the oracle `llm` together with the `llmInvoked` flag; the
cache read `r.cache.Get(query)` is the oracle `cacheLookup` (`none` models
a read error or miss, `some c` a successful read of `c`). -/

namespace Router

/-- Generic association-list lookup for parsed JSON maps. -/
def assocFind {α : Type} (m : List (String × α)) (k : String) : Option α :=
  (m.find? (fun p => p.1 = k)).map (fun p => p.2)

/-- router.go:27-32. -/
structure KBIndex where
  functionsByName : List (String × List String)
  functionsCalling : List (String × List String)
  functionsByTag : List (String × List String)
  typesByName : List (String × List String)

/-- router.go:40-45. -/
structure FunctionNode where
  name : String
  location : String
  calls : List String
  calledBy : List String

/-- router.go:47-51. -/
structure TypeNode where
  name : String
  location : String
  methods : List String

/-- router.go:35-38. -/
structure CallGraph where
  functions : List (String × FunctionNode)
  types : List (String × TypeNode)

structure Router where
  kbIndex : KBIndex
  callGraph : CallGraph
  classifier : Classifier.Classifier
  cacheLookup : String → Option String
  llm : String → String

/-- Stop words of `extractEntityName` (router.go:344-350). -/
def entityStopWords : List String :=
  ["where", "is", "the", "function",
   "class", "method", "type", "find",
   "locate", "what", "does", "do",
   "who", "calls", "uses", "used",
   "a", "an", "this", "that"]

/-- `extractEntityName` (router.go:336-365): first word, case preserved,
that is not a stop word. -/
def extractEntityName (query : String) : String :=
  let queryLower := GoStr.toLower query
  let words := GoStr.fields query
  let wordsLower := GoStr.fields queryLower
  let filtered := (words.zip wordsLower).filterMap (fun p =>
    if entityStopWords.contains p.2 then none else some p.1)
  match filtered with
  | w :: _ => w
  | [] => ""

/-- `fuzzySearch` (router.go:368-392): substring matches over function then
type names (association-list order standing in for Go's map iteration
order), capped at 5. -/
def fuzzySearch (r : Router) (entity : String) : List String :=
  let entityLower := GoStr.toLower entity
  let funcMatches := r.kbIndex.functionsByName.filterMap (fun p =>
    if GoStr.contains (GoStr.toLower p.1) entityLower then
      some (p.1 ++ " (function)")
    else none)
  let typeMatches := r.kbIndex.typesByName.filterMap (fun p =>
    if GoStr.contains (GoStr.toLower p.1) entityLower then
      some (p.1 ++ " (type)")
    else none)
  (funcMatches ++ typeMatches).take 5

/-- `handleLocation` (router.go:189-235): KB-index lookups and fuzzy
fallback only; never touches the context builder or the LLM client. -/
def handleLocation (r : Router) (query : String)
    (cls : Classifier.Classification) : String :=
  let entity :=
    match cls.symbols with
    | e :: _ => e
    | [] => extractEntityName query
  if entity = "" then "Could not identify function or class name in query"
  else
    let funcResults :=
      match assocFind r.kbIndex.functionsByName entity with
      | some locations =>
          ("Function \x27" ++ entity ++ "\x27 found at:") ::
            locations.map (fun loc => "  📍 " ++ loc)
      | none => []
    let typeResults :=
      match assocFind r.kbIndex.typesByName entity with
      | some locations =>
          ("Type \x27" ++ entity ++ "\x27 found at:") ::
            locations.map (fun loc => "  📍 " ++ loc)
      | none => []
    let results := funcResults ++ typeResults
    if results.length = 0 then
      let fuzzyMatches := fuzzySearch r entity
      if fuzzyMatches.length > 0 then
        GoStr.join
          (("No exact match for \x27" ++ entity ++ "\x27. Did you mean:") ::
            fuzzyMatches.map (fun m => "  • " ++ m)) "\n"
      else "Function or class \x27" ++ entity ++ "\x27 not found in the codebase"
    else GoStr.join results "\n"

/-- `handleUsage` (router.go:237-301): call-graph and reverse-index lookups
only; never touches the context builder or the LLM client. -/
def handleUsage (r : Router) (query : String)
    (cls : Classifier.Classification) : String :=
  let entity :=
    match cls.symbols with
    | e :: _ => e
    | [] => extractEntityName query
  if entity = "" then "Could not identify function or class name in query"
  else
    match assocFind r.callGraph.functions entity with
    | some funcNode =>
        let callsSection :=
          if funcNode.calls.length > 0 then
            ("Calls:" :: funcNode.calls.map (fun callee => "  → " ++ callee)) ++ [""]
          else []
        let calledBySection :=
          if funcNode.calledBy.length > 0 then
            "Called by:" :: funcNode.calledBy.map (fun caller => "  ← " ++ caller)
          else ["⚠️  Not called by any other function (possibly unused or entry point)"]
        GoStr.join
          ((("📊 Usage Analysis for \x27" ++ entity ++ "\x27:") ::
            ("Location: " ++ funcNode.location) :: "" :: callsSection) ++
            calledBySection) "\n"
    | none =>
      match assocFind r.callGraph.types entity with
      | some typeNode =>
          let methodsSection :=
            if typeNode.methods.length > 0 then
              "Methods:" :: typeNode.methods.map (fun m => "  • " ++ m)
            else []
          GoStr.join
            ((("📊 Type Analysis for \x27" ++ entity ++ "\x27:") ::
              ("Location: " ++ typeNode.location) :: "" :: []) ++ methodsSection) "\n"
      | none =>
        match assocFind r.kbIndex.functionsCalling entity with
        | some callers =>
            GoStr.join
              (("Functions calling \x27" ++ entity ++ "\x27:") ::
                callers.map (fun caller => "  ← " ++ caller)) "\n"
        | none => "No usage information found for \x27" ++ entity ++ "\x27"

/-- The outcome of `Query`: the returned string and whether the LLM client
was invoked on the way. -/
structure QueryResult where
  response : String
  llmInvoked : Bool
deriving DecidableEq, Repr

/-- The dispatch switch of `Query` (router.go:149-175): Location and Usage
go to the KB-only handlers; Understanding, Implementation and Architecture
(the latter two delegate to `handleUnderstanding`) and the `default:` arm —
reached by Dependency, Debug, Comparison and every other intent —
initialize the context builder and send the query to the LLM client. -/
def routerDispatch (r : Router) (query : String) : QueryResult :=
  let cls := Classifier.classify r.classifier query
  match cls.type with
  | .location => { response := handleLocation r query cls, llmInvoked := false }
  | .usage => { response := handleUsage r query cls, llmInvoked := false }
  | .understanding => { response := r.llm query, llmInvoked := true }
  | .implementation => { response := r.llm query, llmInvoked := true }
  | .architecture => { response := r.llm query, llmInvoked := true }
  | _ => { response := r.llm query, llmInvoked := true }

/-- `Query` (router.go:134-187): cache probe, then classification and
dispatch on a miss. -/
def routerQuery (r : Router) (query : String) : QueryResult :=
  match r.cacheLookup query with
  | some cached =>
      if ¬ cached = "" then { response := cached, llmInvoked := false }
      else routerDispatch r query
  | none => routerDispatch r query

end Router

/-! ## Concrete fixtures

Small concrete inputs on which the embedded functions are evaluated by the
kernel: a classifier with a one-symbol knowledge base, chunk stores
exercising the retrieval pipeline, a corrupt vector-store header, and a
router over a tiny knowledge base. -/

namespace Fixtures

open Classifier ContextBuilder Router

/-- A classifier whose KB index holds the single function `parse_file`. -/
def kb6 : Classifier.Classifier :=
  { validSymbols := ["parse_file"], validTypes := [] }

/-- A classifier constructed without a KB index. -/
def kbEmpty : Classifier.Classifier :=
  { validSymbols := [], validTypes := [] }

/-- A chunk the exact-symbol strategy finds (symbol `get_aa`, score 90),
with a modest keyword score. -/
def chE : Chunk :=
  { id := "E", chunkType := "function", file := "e.go", startLine := 1,
    endLine := 5, content := "", tokens := 0, symbols := ["get_aa"],
    name := "", importance := 7/10 }

/-- A chunk the exact-symbol strategy does not find (no equal name or
symbol) whose many substring matches give it a keyword score above any
fused exact score in `cb3`. -/
def chK : Chunk :=
  { id := "K", chunkType := "function", file := "k.go", startLine := 1,
    endLine := 5, content := "", tokens := 0,
    symbols := ["get_aa_get_bb_get_cc"], name := "get_aa_get_bb_get_cc",
    importance := 7/10 }

/-- The query whose potential symbols are `get_aa`, `get_bb`, `get_cc`. -/
def q3 : String := "get_aa get_bb get_cc"

/-- Builder over `[chE, chK]`: no call graph, no embeddings. -/
def cb3 : Builder :=
  { chunks := [chE, chK], callGraph := [], hasCallGraph := false,
    hasEmbeddings := false, semanticSearch := fun _ => none,
    cfg := { maxTokens := 8000 } }

def chE1 : Chunk :=
  { id := "E1", chunkType := "function", file := "e.go", startLine := 1,
    endLine := 5, content := "", tokens := 0, symbols := ["get_aa"],
    name := "", importance := 7/10 }

def chE2 : Chunk :=
  { id := "E2", chunkType := "function", file := "e.go", startLine := 10,
    endLine := 15, content := "", tokens := 0, symbols := ["get_bb"],
    name := "", importance := 7/10 }

def chK1 : Chunk :=
  { id := "K1", chunkType := "function", file := "k.go", startLine := 1,
    endLine := 5, content := "", tokens := 0,
    symbols := ["get_aa_get_bb_get_cc"], name := "get_aa_get_bb_get_cc",
    importance := 7/10 }

def chK2 : Chunk :=
  { id := "K2", chunkType := "function", file := "k2.go", startLine := 1,
    endLine := 5, content := "", tokens := 0,
    symbols := ["get_aa_get_bb_get_cc_zz"], name := "get_aa_get_bb_get_cc_zz",
    importance := 7/10 }

/-- Builder in which, at `topK = 2`, the keyword strategy's top-2 list
omits the exact-matched chunks, so both keep the fused match type
`"exact"`. -/
def cbW : Builder :=
  { chunks := [chE1, chE2, chK1, chK2], callGraph := [], hasCallGraph := false,
    hasEmbeddings := false, semanticSearch := fun _ => none,
    cfg := { maxTokens := 8000 } }

/-- A builder whose `llm.max_tokens` of 100 drives every budget negative. -/
def cbNeg : Builder :=
  { chunks := [chE1, chE2, chK1, chK2], callGraph := [], hasCallGraph := false,
    hasEmbeddings := false, semanticSearch := fun _ => none,
    cfg := { maxTokens := 100 } }

/-- The context window `buildContext cbW q3` returns. -/
def w2 : ContextWindow :=
  match buildContext cbW q3 with
  | .ok w => w
  | .error _ => { chunks := [], totalTokens := 0, sources := [] }

/-- An `embeddings.bin` image whose header records dimension 2:
count 1, dimension 2, then one 2-float vector. -/
def badBytes : List Nat :=
  [1, 0, 0, 0, 2, 0, 0, 0, 0, 0, 0, 0, 0, 0, 0, 0]

/-- A well-formed (empty) `embeddings.json`. -/
def emptyEmbData : EmbeddingsData :=
  { model := "nomic-embed-text", dimension := 384, totalChunks := 0,
    embeddings := [] }

/-- On-disk state with the mismatched vector store and a readable chunk
sidecar. -/
def c5Input : CreatorInput :=
  { embBin := some badBytes, embJson := some emptyEmbData,
    callGraphJson := none }

def c5Cfg : ContextBuilder.Config := { maxTokens := 8000 }

/-- A KB index holding `parse_file`. -/
def demoKBIndex : KBIndex :=
  { functionsByName := [("parse_file", ["src/p.py:10"])],
    functionsCalling := [], functionsByTag := [], typesByName := [] }

def demoCallGraph : Router.CallGraph :=
  { functions := [("parse_file",
      { name := "parse_file", location := "src/p.py:10",
        calls := ["read_file"], calledBy := ["main"] })],
    types := [] }

/-- A router over the tiny knowledge base, with an empty cache and an LLM
oracle. -/
def demoRouter : Router.Router :=
  { kbIndex := demoKBIndex, callGraph := demoCallGraph, classifier := kb6,
    cacheLookup := fun _ => none, llm := fun _ => "LLM RESPONSE" }

end Fixtures

/-! ## Supporting lemmas -/

/-- Selecting under a negative budget selects nothing: the very first
candidate's `tokens + 20` already overflows (context_builder.go:726). -/
theorem selectChunks_of_neg (scored : List ContextBuilder.ScoredChunk)
    (budget : Int) (h : budget < 0) :
    ContextBuilder.selectChunks scored budget = [] := by
  cases scored with
  | nil => rfl
  | cons sc rest =>
      unfold ContextBuilder.selectChunks ContextBuilder.selectChunksAux
      rw [if_pos]
      · rfl
      · have : (0 : Int) ≤ ((0 + (sc.chunk.tokens + 20) : Nat) : Int) := Int.natCast_nonneg _
        omega

/-- A `foldl` accumulating token counts equals its initial value plus the
mapped sum. -/
theorem foldl_tokens_eq_sum (l : List ContextBuilder.Chunk) (n : Nat) :
    l.foldl (fun t c => t + c.tokens + 20) n =
      n + (l.map (fun c => c.tokens + 20)).sum := by
  induction l generalizing n with
  | nil => simp
  | cons c rest ih => simp [List.foldl, ih]; omega

/-- The reversed accumulator's assembled total is the accumulator's token
sum. -/
theorem assembleContext_reverse_totalTokens (acc : List ContextBuilder.Chunk) :
    (ContextBuilder.assembleContext acc.reverse).totalTokens =
      (acc.map (fun c => c.tokens + 20)).sum := by
  unfold ContextBuilder.assembleContext
  simp only [foldl_tokens_eq_sum, Nat.zero_add, List.map_reverse, List.sum_reverse]

/-- The budget invariant of the selection loop: if the running total
matches the selected chunks and fits the budget, the assembled window's
total fits the budget. -/
theorem selectChunksAux_totalTokens_le (budget : Int)
    (scored : List ContextBuilder.ScoredChunk)
    (acc : List ContextBuilder.Chunk) (cur : Nat)
    (hinv : cur = (acc.map (fun c => c.tokens + 20)).sum)
    (hle : (cur : Int) ≤ budget) :
    ((ContextBuilder.assembleContext
        (ContextBuilder.selectChunksAux budget scored acc cur)).totalTokens : Int)
      ≤ budget := by
  induction scored generalizing acc cur with
  | nil =>
      unfold ContextBuilder.selectChunksAux
      rw [assembleContext_reverse_totalTokens]
      omega
  | cons sc rest ih =>
      cases acc with
      | nil =>
          unfold ContextBuilder.selectChunksAux
          by_cases hif : (cur : Int) + ((sc.chunk.tokens + 20 : Nat) : Int) > budget
          · rw [if_pos hif, assembleContext_reverse_totalTokens]
            omega
          · rw [if_neg hif]
            apply ih
            · simp at hinv
              simp [hinv]
            · push_cast at hif ⊢
              omega
      | cons last others =>
          unfold ContextBuilder.selectChunksAux
          by_cases hif : (cur : Int) + ((sc.chunk.tokens + 20 : Nat) : Int) > budget
          · rw [if_pos hif, assembleContext_reverse_totalTokens]
            omega
          · rw [if_neg hif]
            dsimp only
            by_cases hmerge : ContextBuilder.canMerge last sc.chunk
            · rw [if_pos hmerge]
              apply ih
              · simp [ContextBuilder.mergeChunks] at hinv ⊢
                omega
              · push_cast at hif ⊢
                omega
            · rw [if_neg hmerge]
              apply ih
              · simp at hinv ⊢
                omega
              · push_cast at hif ⊢
                omega

/-! ## Claim theorems -/

open Classifier ContextBuilder Router Cache Checksum Fixtures in
/-- C10: when the classifier was built without a KB index (empty
valid-symbol set), `validateSymbols` returns the extracted symbol list
unchanged for every query. -/
theorem C10_validateSymbols_passthrough (c : Classifier.Classifier) (q : String)
    (h : c.validSymbols = []) :
    Classifier.validateSymbols c (Classifier.extractSymbols q) =
      Classifier.extractSymbols q := by
  unfold Classifier.validateSymbols
  rw [h]
  rfl

open Classifier Fixtures in
/-- C10 witness: a concrete classifier with no KB index passes the symbols
extracted from a concrete query through unchanged. -/
theorem C10_witness :
    Fixtures.kbEmpty.validSymbols = [] ∧
    Classifier.validateSymbols Fixtures.kbEmpty
        (Classifier.extractSymbols "why is parse_file failing?") =
      Classifier.extractSymbols "why is parse_file failing?" :=
  ⟨rfl, C10_validateSymbols_passthrough Fixtures.kbEmpty
    "why is parse_file failing?" rfl⟩

/-- C6 counterexample: for the query `"why is parse_file failing?"` with
`parse_file` in the KB index, `Classify` indeed returns Debug at
confidence 0.95, but its symbol list is empty — it does not include
`parse_file`, contrary to the claim. -/
theorem C6_counterexample :
    Fixtures.kb6.validSymbols.contains "parse_file" = true ∧
    (Classifier.classify Fixtures.kb6 "why is parse_file failing?").type =
      Classifier.QueryType.debug ∧
    (Classifier.classify Fixtures.kb6 "why is parse_file failing?").confidence =
      95/100 ∧
    (Classifier.classify Fixtures.kb6 "why is parse_file failing?").symbols = [] := by
  refine ⟨by decide, ?_, ?_, ?_⟩ <;> with_unfolding_all decide

/-- C6 (amended): a query matching the level-1 debug pattern is classified
Debug at confidence 0.95 with an **empty** symbol list — level-1
classifications never carry symbols, whatever the KB index contains. -/
theorem C6_debug_classification (c : Classifier.Classifier) (q : String)
    (h : Pattern.rxMatch Classifier.debugAlts
          (GoStr.toLower (GoStr.trimSpace q)) = true) :
    Classifier.classify c q =
      { type := Classifier.QueryType.debug, confidence := 95/100, symbols := [],
        keywords := [], reasoning := "Level 1: debug/error pattern match",
        priority := 1, needsContext := true, entities := [] } := by
  unfold Classifier.classify Classifier.level1PatternMatch
  simp only [h, if_true]
  norm_num

/-- C6 witness: the amended theorem applied to the concrete query and
single-symbol knowledge base of the counterexample. -/
theorem C6_witness :
    Pattern.rxMatch Classifier.debugAlts
        (GoStr.toLower (GoStr.trimSpace "why is parse_file failing?")) = true ∧
    Classifier.classify Fixtures.kb6 "why is parse_file failing?" =
      { type := Classifier.QueryType.debug, confidence := 95/100, symbols := [],
        keywords := [], reasoning := "Level 1: debug/error pattern match",
        priority := 1, needsContext := true, entities := [] } :=
  ⟨by decide, C6_debug_classification Fixtures.kb6 "why is parse_file failing?"
    (by decide)⟩

/-- C4 counterexample: on a builder whose derived budget is negative,
`BuildContext` does not fail — it returns an empty context window with no
error. -/
theorem C4_counterexample :
    ContextBuilder.tokenBudget Fixtures.cbNeg.cfg "q" < 0 ∧
    ContextBuilder.buildContext Fixtures.cbNeg "q" =
      .ok { chunks := [], totalTokens := 0, sources := [] } := by
  constructor
  · with_unfolding_all decide
  · with_unfolding_all decide

/-- C4 (amended): `BuildContext` performs no negativity check; whenever the
derived token budget is negative it returns an empty context window
(`total_tokens = 0`) and a nil error, for every builder and query. -/
theorem C4_negative_budget_empty_window (cb : ContextBuilder.Builder)
    (query : String) (h : ContextBuilder.tokenBudget cb.cfg query < 0) :
    ContextBuilder.buildContext cb query =
      .ok { chunks := [], totalTokens := 0, sources := [] } := by
  simp only [ContextBuilder.buildContext]
  rw [selectChunks_of_neg _ _ h]
  rfl

/-- C4 witness: the amended theorem applied at the concrete
negative-budget builder. -/
theorem C4_witness :
    ContextBuilder.tokenBudget Fixtures.cbNeg.cfg "q" < 0 ∧
    ContextBuilder.buildContext Fixtures.cbNeg "q" =
      .ok { chunks := [], totalTokens := 0, sources := [] } :=
  ⟨by with_unfolding_all decide,
   C4_negative_budget_empty_window Fixtures.cbNeg "q"
    (by with_unfolding_all decide)⟩

/-- C5 counterexample: with an on-disk dimension of 2 against a configured
dimension of 384, `loadEmbeddings` reports the mismatch, yet
`ContextWindowCreator` succeeds and merely records `hasEmbeddings = false`
— construction does not fail. -/
theorem C5_counterexample :
    ContextBuilder.loadEmbeddings 384 Fixtures.badBytes =
      .error "dimension mismatch: expected 384, got 2" ∧
    (ContextBuilder.contextWindowCreator 384 Fixtures.c5Cfg Fixtures.c5Input
        (fun _ => none)).toOption.map (fun b => b.hasEmbeddings) = some false := by
  constructor
  · decide
  · decide

/-- C5 (amended): whenever `loadEmbeddings` fails — dimension mismatch
included — `ContextWindowCreator` swallows the error: provided the chunk
sidecar loads, construction succeeds with `hasEmbeddings = false`
(semantic search disabled), for any call-graph state and semantic
oracle. -/
theorem C5_dimension_mismatch_degrades (cfgDim : Nat)
    (cfg : ContextBuilder.Config) (bytes : List Nat)
    (ed : ContextBuilder.EmbeddingsData)
    (cgj : Option ContextBuilder.CallGraphData)
    (sem : String → Option (List ContextBuilder.ScoredChunk)) (msg : String)
    (herr : ContextBuilder.loadEmbeddings cfgDim bytes = .error msg) :
    (ContextBuilder.contextWindowCreator cfgDim cfg
        { embBin := some bytes, embJson := some ed, callGraphJson := cgj }
        sem).toOption.map (fun b => b.hasEmbeddings) = some false := by
  unfold ContextBuilder.contextWindowCreator
  dsimp only
  rw [herr]
  rfl

/-- C5 witness: the amended theorem applied to the concrete mismatched
vector store. -/
theorem C5_witness :
    ContextBuilder.loadEmbeddings 384 Fixtures.badBytes =
      .error "dimension mismatch: expected 384, got 2" ∧
    (ContextBuilder.contextWindowCreator 384 Fixtures.c5Cfg
        { embBin := some Fixtures.badBytes, embJson := some Fixtures.emptyEmbData,
          callGraphJson := none }
        (fun _ => none)).toOption.map (fun b => b.hasEmbeddings) = some false :=
  ⟨by decide,
   C5_dimension_mismatch_degrades 384 Fixtures.c5Cfg Fixtures.badBytes
     Fixtures.emptyEmbData none (fun _ => none)
     "dimension mismatch: expected 384, got 2" (by decide)⟩

/-- C9 counterexample: with both backends enabled, a failing Redis write
makes `Set` return before the SQL write — the entry does not reach the
healthy SQL backend, contrary to the claim of independent writes. -/
theorem C9_counterexample :
    (Cache.set Cache.demoManager Cache.emptyState "q" "r" "c" 0 true false).err =
      some "redis save failed" ∧
    (Cache.set Cache.demoManager Cache.emptyState "q" "r" "c" 0 true
        false).state.sql (Cache.demoManager.hashQuery "q") = none := by
  constructor
  · rfl
  · rfl

/-- C9 (amended): `Set` writes Redis first, then SQL.  A failing Redis
write returns a non-fatal error and skips the SQL write entirely (both
backends keep their prior contents); a failing SQL write returns a
non-fatal error but the Redis write has already happened. -/
theorem C9_set_failure_behavior (m : Cache.Manager) (st : Cache.State)
    (q resp c : String) (t : Nat)
    (hr : m.cfg.redisEnabled = true) (hs : m.cfg.sqlEnabled = true) :
    ((Cache.set m st q resp c t true false).state.redis = st.redis ∧
     (Cache.set m st q resp c t true false).state.sql = st.sql ∧
     (Cache.set m st q resp c t true false).err = some "redis save failed") ∧
    ((Cache.set m st q resp c t false true).state.redis
        ("eulix:query:" ++ m.hashQuery q) =
       some { queryHash := m.hashQuery q, query := q, response := resp,
              checksumHash := c, createdAt := t,
              expiresAt := t + Cache.getTTL m } ∧
     (Cache.set m st q resp c t false true).state.sql = st.sql ∧
     (Cache.set m st q resp c t false true).err = some "sql save failed") := by
  unfold Cache.set
  simp [hr, hs, Cache.storeSet]

/-- C9 witness: the amended theorem applied at the concrete dual-backend
manager. -/
theorem C9_witness :
    Cache.demoManager.cfg.redisEnabled = true ∧
    Cache.demoManager.cfg.sqlEnabled = true ∧
    ((Cache.set Cache.demoManager Cache.emptyState "q" "r" "c" 0 true
        false).state.sql = Cache.emptyState.sql ∧
     (Cache.set Cache.demoManager Cache.emptyState "q" "r" "c" 0 false
        true).err = some "sql save failed") :=
  ⟨rfl, rfl,
   (C9_set_failure_behavior Cache.demoManager Cache.emptyState "q" "r" "c" 0
      rfl rfl).1.2.1,
   (C9_set_failure_behavior Cache.demoManager Cache.emptyState "q" "r" "c" 0
      rfl rfl).2.2.2⟩

/-- C7: with at least one backend enabled, `Set(q, r, c)` followed by
`Get(q, c)` before expiry returns `r` as a hit, and `Get(q, c2)` with any
`c2 ≠ c` is a miss — for every prior cache state, key-derivation function,
and write/read times within the TTL. -/
theorem C7_set_get_roundtrip (m : Cache.Manager) (st : Cache.State)
    (q resp c c2 : String) (tset tget : Nat)
    (henabled : m.cfg.redisEnabled = true ∨ m.cfg.sqlEnabled = true)
    (hfresh : ¬ tget > tset + Cache.getTTL m)
    (hne : ¬ c2 = c) :
    (Cache.get m (Cache.set m st q resp c tset false false).state q c
        tget).found = true ∧
    (Cache.get m (Cache.set m st q resp c tset false false).state q c
        tget).response = resp ∧
    (Cache.get m (Cache.set m st q resp c tset false false).state q c2
        tget).found = false ∧
    (Cache.get m (Cache.set m st q resp c tset false false).state q c2
        tget).response = "" := by
  have hne' : ¬ c = c2 := fun hcc => hne hcc.symm
  by_cases hr : m.cfg.redisEnabled = true <;>
    by_cases hs : m.cfg.sqlEnabled = true
  · refine ⟨?_, ?_, ?_, ?_⟩ <;>
      simp [Cache.set, Cache.get, Cache.getFromRedis, Cache.getFromSQL,
        Cache.storeGet, Cache.storeSet, Cache.storeDel, hr, hs, hne', hfresh]
  · refine ⟨?_, ?_, ?_, ?_⟩ <;>
      simp [Cache.set, Cache.get, Cache.getFromRedis, Cache.getFromSQL,
        Cache.storeGet, Cache.storeSet, Cache.storeDel, hr, hs, hne', hfresh]
  · refine ⟨?_, ?_, ?_, ?_⟩ <;>
      simp [Cache.set, Cache.get, Cache.getFromRedis, Cache.getFromSQL,
        Cache.storeGet, Cache.storeSet, Cache.storeDel, hr, hs, hne', hfresh]
  · rcases henabled with h | h
    · exact absurd h hr
    · exact absurd h hs

/-- C7 witness: the round trip at a concrete manager (both backends, the
SHA-256 key derivation), query, response and checksums. -/
theorem C7_witness :
    (Cache.demoManager.cfg.redisEnabled = true ∨
      Cache.demoManager.cfg.sqlEnabled = true) ∧
    ¬ (1 : Nat) > 0 + Cache.getTTL Cache.demoManager ∧
    ¬ "def" = "abc" ∧
    (Cache.get Cache.demoManager
        (Cache.set Cache.demoManager Cache.emptyState "what is main?" "answer"
          "abc" 0 false false).state "what is main?" "abc" 1).response =
      "answer" ∧
    (Cache.get Cache.demoManager
        (Cache.set Cache.demoManager Cache.emptyState "what is main?" "answer"
          "abc" 0 false false).state "what is main?" "def" 1).found = false :=
  ⟨Or.inl rfl, by decide, by decide,
   (C7_set_get_roundtrip Cache.demoManager Cache.emptyState "what is main?"
      "answer" "abc" "def" 0 1 (Or.inl rfl) (by decide) (by decide)).2.1,
   (C7_set_get_roundtrip Cache.demoManager Cache.emptyState "what is main?"
      "answer" "abc" "def" 0 1 (Or.inl rfl) (by decide) (by decide)).2.2.1⟩

/-- C2: for every builder, query, and non-negative derived budget, the
context window `BuildContext` returns has `total_tokens` within the
budget. -/
theorem C2_window_within_budget (cb : ContextBuilder.Builder) (query : String)
    (W : ContextBuilder.ContextWindow)
    (hok : ContextBuilder.buildContext cb query = .ok W)
    (hpos : 0 ≤ ContextBuilder.tokenBudget cb.cfg query) :
    (W.totalTokens : Int) ≤ ContextBuilder.tokenBudget cb.cfg query := by
  simp only [ContextBuilder.buildContext] at hok
  obtain rfl := (Except.ok.inj hok).symm
  exact selectChunksAux_totalTokens_le _ _ [] 0 rfl (by simpa using hpos)

/-- C2 witness: the bound at a concrete builder and query (budget 4798,
window total 20). -/
theorem C2_witness :
    ContextBuilder.buildContext Fixtures.cbW Fixtures.q3 = .ok Fixtures.w2 ∧
    0 ≤ ContextBuilder.tokenBudget Fixtures.cbW.cfg Fixtures.q3 ∧
    (Fixtures.w2.totalTokens : Int) ≤
      ContextBuilder.tokenBudget Fixtures.cbW.cfg Fixtures.q3 :=
  ⟨by with_unfolding_all decide, by with_unfolding_all decide,
   C2_window_within_budget Fixtures.cbW Fixtures.q3 Fixtures.w2
     (by with_unfolding_all decide) (by with_unfolding_all decide)⟩

set_option maxRecDepth 40000 in
/-- C1: the change detector's per-file digest walk is deterministic, but
the aggregate project hash is computed by iterating the `fileHashes` map
(detector.go:150), whose order Go does not specify.  On a concrete
two-file tree, the two possible iteration orders — both permutations of
the same key set — yield different aggregate SHA-256 hashes, so two runs
on an unchanged tree can disagree. -/
theorem C1_aggregate_hash_order_dependent :
    Checksum.treeKeys Checksum.demoTree = ["a.go", "b.go"] ∧
    List.Perm ["b.go", "a.go"] (Checksum.treeKeys Checksum.demoTree) ∧
    ¬ Checksum.calculateHash Checksum.demoTree ["a.go", "b.go"] =
      Checksum.calculateHash Checksum.demoTree ["b.go", "a.go"] := by
  refine ⟨rfl, by decide, by decide⟩

/-- C3 counterexample: in the final sorted candidate order (no call graph,
fewer than 20 candidates, so `buildContextWithoutGraph` returns
`multiStrategySearch`'s order unchanged), the chunk `E` found by the
exact-symbol strategy ranks strictly BELOW the keyword-only chunk `K`:
`E`'s fused match type is `"exact+keyword"`, and the comparator then orders
purely by score (133 vs 92). -/
theorem C3_counterexample :
    ((ContextBuilder.exactSymbolSearch Fixtures.cb3.chunks Fixtures.q3).map
      (fun c => c.chunk.id)) = ["E"] ∧
    ((ContextBuilder.multiStrategySearch Fixtures.cb3 Fixtures.q3 100).map
      (fun c => c.chunk.id)) = ["K", "E"] ∧
    ContextBuilder.buildContextWithoutGraph
        (ContextBuilder.multiStrategySearch Fixtures.cb3 Fixtures.q3 100)
        (ContextBuilder.tokenBudget Fixtures.cb3.cfg Fixtures.q3) =
      ContextBuilder.multiStrategySearch Fixtures.cb3 Fixtures.q3 100 ∧
    Fixtures.cb3.hasCallGraph = false := by
  refine ⟨?_, ?_, ?_, rfl⟩ <;> with_unfolding_all decide

/-- C3 (amended): in `multiStrategySearch`'s sorted candidate list, every
chunk whose fused match type is exactly `"exact"` (found by the
exact-symbol strategy and not re-tagged by fusion) ranks above every chunk
with any other match type; chunks re-tagged `"exact+keyword"` by fusion,
and the re-sorts of `buildContextWithGraph`/`buildContextWithoutGraph`,
order purely by score. -/
theorem C3_exact_type_sorts_first (cb : ContextBuilder.Builder)
    (query : String) (topK : Nat) (i j : Nat) (hij : i < j)
    (hj : j < (ContextBuilder.multiStrategySearch cb query topK).length)
    (hexact : ((ContextBuilder.multiStrategySearch cb query topK).get
        ⟨j, hj⟩).matchType = "exact") :
    ((ContextBuilder.multiStrategySearch cb query topK).get
        ⟨i, hij.trans hj⟩).matchType = "exact" := by
  have hp : (ContextBuilder.multiStrategySearch cb query topK).Pairwise
      ContextBuilder.candLE := by
    unfold ContextBuilder.multiStrategySearch
    exact ((List.sorted_insertionSort ContextBuilder.candLE _).sublist
      (List.take_sublist _ _))
  have hle := List.pairwise_iff_get.mp hp ⟨i, hij.trans hj⟩ ⟨j, hj⟩ hij
  by_contra hne
  simp only [List.get_eq_getElem] at hexact hne hle
  unfold ContextBuilder.candLE ContextBuilder.candLess at hle
  simp [hexact, hne] at hle

/-- C3 witness: at a builder where the keyword strategy's top-K list omits
the exact-matched chunks, both survive with match type `"exact"` and the
theorem places them ahead. -/
theorem C3_witness :
    (0 : Nat) < 1 ∧
    ((ContextBuilder.multiStrategySearch Fixtures.cbW Fixtures.q3 2).get
        ⟨1, by with_unfolding_all decide⟩).matchType = "exact" ∧
    ((ContextBuilder.multiStrategySearch Fixtures.cbW Fixtures.q3 2).get
        ⟨0, by with_unfolding_all decide⟩).matchType = "exact" :=
  ⟨by decide, by with_unfolding_all decide,
   C3_exact_type_sorts_first Fixtures.cbW Fixtures.q3 2 0 1 (by decide)
     (by with_unfolding_all decide) (by with_unfolding_all decide)⟩

/-- C8 counterexample: a query classified Dependency
(`"list dependencies of parse_file"`, level-1 dependency pattern) falls
into the router's `default:` arm, which initializes the context builder
and invokes the LLM client — Dependency is not answered from the KB
alone. -/
theorem C8_counterexample :
    (Classifier.classify Fixtures.demoRouter.classifier
        "list dependencies of parse_file").type =
      Classifier.QueryType.dependency ∧
    (Router.routerQuery Fixtures.demoRouter
        "list dependencies of parse_file").llmInvoked = true := by
  constructor
  · with_unfolding_all decide
  · with_unfolding_all decide

/-- C8 (amended): on a cache miss, queries classified Location or Usage
are answered by the KB-only handlers (`handleLocation`, `handleUsage`)
without invoking the LLM client, while a query classified Dependency
reaches the default LLM-backed handler. -/
theorem C8_kb_only_handlers (r : Router.Router) (q : String)
    (hc : r.cacheLookup q = none) :
    ((Classifier.classify r.classifier q).type = Classifier.QueryType.location →
      Router.routerQuery r q =
        { response := Router.handleLocation r q (Classifier.classify r.classifier q),
          llmInvoked := false }) ∧
    ((Classifier.classify r.classifier q).type = Classifier.QueryType.usage →
      Router.routerQuery r q =
        { response := Router.handleUsage r q (Classifier.classify r.classifier q),
          llmInvoked := false }) ∧
    ((Classifier.classify r.classifier q).type = Classifier.QueryType.dependency →
      (Router.routerQuery r q).llmInvoked = true) := by
  unfold Router.routerQuery Router.routerDispatch
  rw [hc]
  refine ⟨fun h => ?_, fun h => ?_, fun h => ?_⟩ <;>
    · split <;> simp_all

/-- C8 witness: the amended theorem applied at the concrete router; the
query `"where is parse_file?"` is classified Location and answered by
`handleLocation` without the LLM. -/
theorem C8_witness :
    Fixtures.demoRouter.cacheLookup "where is parse_file?" = none ∧
    (Classifier.classify Fixtures.demoRouter.classifier
        "where is parse_file?").type = Classifier.QueryType.location ∧
    Router.routerQuery Fixtures.demoRouter "where is parse_file?" =
      { response := Router.handleLocation Fixtures.demoRouter
          "where is parse_file?"
          (Classifier.classify Fixtures.demoRouter.classifier
            "where is parse_file?"),
        llmInvoked := false } :=
  ⟨rfl, by with_unfolding_all decide,
   (C8_kb_only_handlers Fixtures.demoRouter "where is parse_file?" rfl).1
     (by with_unfolding_all decide)⟩

end Eulix
